import Mathlib

/-!
Verification of the `rusty-processing` pipeline specification

A shallow embedding, in Lean, of the parts of the `rusty-processing`
repository that its natural-language specification speaks about:

* the deduplication checksums of `identify/src/deduplication.rs`
  (together with a model of the MD5 digest from RFC 1321, which the code
  takes from the `md5` crate);
* the MIME identification chain of `identify/src/mimetype.rs`;
* the strategy dispatch table and the `try_join_all` join of
  `processing/src/processing/processor.rs`;
* the processing context of `processing/src/processing/mod.rs`;
* the archive-path construction of `cli/src/main.rs`;
* the renderer exit-code handling of `processing/src/pdf/rfc822/pdf.rs`.

File and reader contents are modelled as a length together with a byte
function `Nat → Nat` (values below 256); asynchronous readers are modelled
by the deterministic read sequence a `tokio` file or cursor produces (each
`read` call returns `min 1MB remaining` bytes); channels, paths and senders
are modelled by plain data.
-/

/-! MD5 (model of the `md5` crate, RFC 1321) -/

/-- Round function `F` of MD5: `(b ∧ c) ∨ (¬b ∧ d)` on 32-bit words.
Complement is taken against the 32-bit mask `4294967295`. -/
def fF (b c d : Nat) : Nat := Nat.lor (Nat.land b c) (Nat.land (4294967295 - b) d)

/-- Round function `G` of MD5: `(d ∧ b) ∨ (¬d ∧ c)`. -/
def fG (b c d : Nat) : Nat := Nat.lor (Nat.land d b) (Nat.land (4294967295 - d) c)

/-- Round function `H` of MD5: `b ⊕ c ⊕ d`. -/
def fH (b c d : Nat) : Nat := Nat.xor (Nat.xor b c) d

/-- Round function `I` of MD5: `c ⊕ (b ∨ ¬d)`. -/
def fI (b c d : Nat) : Nat := Nat.xor c (Nat.lor b (4294967295 - d))
/-- One MD5 compression round (RFC 1321) on a 16-word block, fully unrolled.
The sixteen little-endian message words are passed individually; the four
chaining words follow.  All arithmetic is on naturals reduced mod 2^32. -/
def md5BlockW (w0 w1 w2 w3 w4 w5 w6 w7 w8 w9 w10 w11 w12 w13 w14 w15 a0 b0 c0 d0 : Nat) : Nat × Nat × Nat × Nat :=
  let r0 := (a0 + (fF b0 c0 d0) + 3614090360 + w0) % 4294967296;
  let x0 := (b0 + (r0 * 128 + r0 / 33554432) % 4294967296) % 4294967296;
  let r1 := (d0 + (fF x0 b0 c0) + 3905402710 + w1) % 4294967296;
  let x1 := (x0 + (r1 * 4096 + r1 / 1048576) % 4294967296) % 4294967296;
  let r2 := (c0 + (fF x1 x0 b0) + 606105819 + w2) % 4294967296;
  let x2 := (x1 + (r2 * 131072 + r2 / 32768) % 4294967296) % 4294967296;
  let r3 := (b0 + (fF x2 x1 x0) + 3250441966 + w3) % 4294967296;
  let x3 := (x2 + (r3 * 4194304 + r3 / 1024) % 4294967296) % 4294967296;
  let r4 := (x0 + (fF x3 x2 x1) + 4118548399 + w4) % 4294967296;
  let x4 := (x3 + (r4 * 128 + r4 / 33554432) % 4294967296) % 4294967296;
  let r5 := (x1 + (fF x4 x3 x2) + 1200080426 + w5) % 4294967296;
  let x5 := (x4 + (r5 * 4096 + r5 / 1048576) % 4294967296) % 4294967296;
  let r6 := (x2 + (fF x5 x4 x3) + 2821735955 + w6) % 4294967296;
  let x6 := (x5 + (r6 * 131072 + r6 / 32768) % 4294967296) % 4294967296;
  let r7 := (x3 + (fF x6 x5 x4) + 4249261313 + w7) % 4294967296;
  let x7 := (x6 + (r7 * 4194304 + r7 / 1024) % 4294967296) % 4294967296;
  let r8 := (x4 + (fF x7 x6 x5) + 1770035416 + w8) % 4294967296;
  let x8 := (x7 + (r8 * 128 + r8 / 33554432) % 4294967296) % 4294967296;
  let r9 := (x5 + (fF x8 x7 x6) + 2336552879 + w9) % 4294967296;
  let x9 := (x8 + (r9 * 4096 + r9 / 1048576) % 4294967296) % 4294967296;
  let r10 := (x6 + (fF x9 x8 x7) + 4294925233 + w10) % 4294967296;
  let x10 := (x9 + (r10 * 131072 + r10 / 32768) % 4294967296) % 4294967296;
  let r11 := (x7 + (fF x10 x9 x8) + 2304563134 + w11) % 4294967296;
  let x11 := (x10 + (r11 * 4194304 + r11 / 1024) % 4294967296) % 4294967296;
  let r12 := (x8 + (fF x11 x10 x9) + 1804603682 + w12) % 4294967296;
  let x12 := (x11 + (r12 * 128 + r12 / 33554432) % 4294967296) % 4294967296;
  let r13 := (x9 + (fF x12 x11 x10) + 4254626195 + w13) % 4294967296;
  let x13 := (x12 + (r13 * 4096 + r13 / 1048576) % 4294967296) % 4294967296;
  let r14 := (x10 + (fF x13 x12 x11) + 2792965006 + w14) % 4294967296;
  let x14 := (x13 + (r14 * 131072 + r14 / 32768) % 4294967296) % 4294967296;
  let r15 := (x11 + (fF x14 x13 x12) + 1236535329 + w15) % 4294967296;
  let x15 := (x14 + (r15 * 4194304 + r15 / 1024) % 4294967296) % 4294967296;
  let r16 := (x12 + (fG x15 x14 x13) + 4129170786 + w1) % 4294967296;
  let x16 := (x15 + (r16 * 32 + r16 / 134217728) % 4294967296) % 4294967296;
  let r17 := (x13 + (fG x16 x15 x14) + 3225465664 + w6) % 4294967296;
  let x17 := (x16 + (r17 * 512 + r17 / 8388608) % 4294967296) % 4294967296;
  let r18 := (x14 + (fG x17 x16 x15) + 643717713 + w11) % 4294967296;
  let x18 := (x17 + (r18 * 16384 + r18 / 262144) % 4294967296) % 4294967296;
  let r19 := (x15 + (fG x18 x17 x16) + 3921069994 + w0) % 4294967296;
  let x19 := (x18 + (r19 * 1048576 + r19 / 4096) % 4294967296) % 4294967296;
  let r20 := (x16 + (fG x19 x18 x17) + 3593408605 + w5) % 4294967296;
  let x20 := (x19 + (r20 * 32 + r20 / 134217728) % 4294967296) % 4294967296;
  let r21 := (x17 + (fG x20 x19 x18) + 38016083 + w10) % 4294967296;
  let x21 := (x20 + (r21 * 512 + r21 / 8388608) % 4294967296) % 4294967296;
  let r22 := (x18 + (fG x21 x20 x19) + 3634488961 + w15) % 4294967296;
  let x22 := (x21 + (r22 * 16384 + r22 / 262144) % 4294967296) % 4294967296;
  let r23 := (x19 + (fG x22 x21 x20) + 3889429448 + w4) % 4294967296;
  let x23 := (x22 + (r23 * 1048576 + r23 / 4096) % 4294967296) % 4294967296;
  let r24 := (x20 + (fG x23 x22 x21) + 568446438 + w9) % 4294967296;
  let x24 := (x23 + (r24 * 32 + r24 / 134217728) % 4294967296) % 4294967296;
  let r25 := (x21 + (fG x24 x23 x22) + 3275163606 + w14) % 4294967296;
  let x25 := (x24 + (r25 * 512 + r25 / 8388608) % 4294967296) % 4294967296;
  let r26 := (x22 + (fG x25 x24 x23) + 4107603335 + w3) % 4294967296;
  let x26 := (x25 + (r26 * 16384 + r26 / 262144) % 4294967296) % 4294967296;
  let r27 := (x23 + (fG x26 x25 x24) + 1163531501 + w8) % 4294967296;
  let x27 := (x26 + (r27 * 1048576 + r27 / 4096) % 4294967296) % 4294967296;
  let r28 := (x24 + (fG x27 x26 x25) + 2850285829 + w13) % 4294967296;
  let x28 := (x27 + (r28 * 32 + r28 / 134217728) % 4294967296) % 4294967296;
  let r29 := (x25 + (fG x28 x27 x26) + 4243563512 + w2) % 4294967296;
  let x29 := (x28 + (r29 * 512 + r29 / 8388608) % 4294967296) % 4294967296;
  let r30 := (x26 + (fG x29 x28 x27) + 1735328473 + w7) % 4294967296;
  let x30 := (x29 + (r30 * 16384 + r30 / 262144) % 4294967296) % 4294967296;
  let r31 := (x27 + (fG x30 x29 x28) + 2368359562 + w12) % 4294967296;
  let x31 := (x30 + (r31 * 1048576 + r31 / 4096) % 4294967296) % 4294967296;
  let r32 := (x28 + (fH x31 x30 x29) + 4294588738 + w5) % 4294967296;
  let x32 := (x31 + (r32 * 16 + r32 / 268435456) % 4294967296) % 4294967296;
  let r33 := (x29 + (fH x32 x31 x30) + 2272392833 + w8) % 4294967296;
  let x33 := (x32 + (r33 * 2048 + r33 / 2097152) % 4294967296) % 4294967296;
  let r34 := (x30 + (fH x33 x32 x31) + 1839030562 + w11) % 4294967296;
  let x34 := (x33 + (r34 * 65536 + r34 / 65536) % 4294967296) % 4294967296;
  let r35 := (x31 + (fH x34 x33 x32) + 4259657740 + w14) % 4294967296;
  let x35 := (x34 + (r35 * 8388608 + r35 / 512) % 4294967296) % 4294967296;
  let r36 := (x32 + (fH x35 x34 x33) + 2763975236 + w1) % 4294967296;
  let x36 := (x35 + (r36 * 16 + r36 / 268435456) % 4294967296) % 4294967296;
  let r37 := (x33 + (fH x36 x35 x34) + 1272893353 + w4) % 4294967296;
  let x37 := (x36 + (r37 * 2048 + r37 / 2097152) % 4294967296) % 4294967296;
  let r38 := (x34 + (fH x37 x36 x35) + 4139469664 + w7) % 4294967296;
  let x38 := (x37 + (r38 * 65536 + r38 / 65536) % 4294967296) % 4294967296;
  let r39 := (x35 + (fH x38 x37 x36) + 3200236656 + w10) % 4294967296;
  let x39 := (x38 + (r39 * 8388608 + r39 / 512) % 4294967296) % 4294967296;
  let r40 := (x36 + (fH x39 x38 x37) + 681279174 + w13) % 4294967296;
  let x40 := (x39 + (r40 * 16 + r40 / 268435456) % 4294967296) % 4294967296;
  let r41 := (x37 + (fH x40 x39 x38) + 3936430074 + w0) % 4294967296;
  let x41 := (x40 + (r41 * 2048 + r41 / 2097152) % 4294967296) % 4294967296;
  let r42 := (x38 + (fH x41 x40 x39) + 3572445317 + w3) % 4294967296;
  let x42 := (x41 + (r42 * 65536 + r42 / 65536) % 4294967296) % 4294967296;
  let r43 := (x39 + (fH x42 x41 x40) + 76029189 + w6) % 4294967296;
  let x43 := (x42 + (r43 * 8388608 + r43 / 512) % 4294967296) % 4294967296;
  let r44 := (x40 + (fH x43 x42 x41) + 3654602809 + w9) % 4294967296;
  let x44 := (x43 + (r44 * 16 + r44 / 268435456) % 4294967296) % 4294967296;
  let r45 := (x41 + (fH x44 x43 x42) + 3873151461 + w12) % 4294967296;
  let x45 := (x44 + (r45 * 2048 + r45 / 2097152) % 4294967296) % 4294967296;
  let r46 := (x42 + (fH x45 x44 x43) + 530742520 + w15) % 4294967296;
  let x46 := (x45 + (r46 * 65536 + r46 / 65536) % 4294967296) % 4294967296;
  let r47 := (x43 + (fH x46 x45 x44) + 3299628645 + w2) % 4294967296;
  let x47 := (x46 + (r47 * 8388608 + r47 / 512) % 4294967296) % 4294967296;
  let r48 := (x44 + (fI x47 x46 x45) + 4096336452 + w0) % 4294967296;
  let x48 := (x47 + (r48 * 64 + r48 / 67108864) % 4294967296) % 4294967296;
  let r49 := (x45 + (fI x48 x47 x46) + 1126891415 + w7) % 4294967296;
  let x49 := (x48 + (r49 * 1024 + r49 / 4194304) % 4294967296) % 4294967296;
  let r50 := (x46 + (fI x49 x48 x47) + 2878612391 + w14) % 4294967296;
  let x50 := (x49 + (r50 * 32768 + r50 / 131072) % 4294967296) % 4294967296;
  let r51 := (x47 + (fI x50 x49 x48) + 4237533241 + w5) % 4294967296;
  let x51 := (x50 + (r51 * 2097152 + r51 / 2048) % 4294967296) % 4294967296;
  let r52 := (x48 + (fI x51 x50 x49) + 1700485571 + w12) % 4294967296;
  let x52 := (x51 + (r52 * 64 + r52 / 67108864) % 4294967296) % 4294967296;
  let r53 := (x49 + (fI x52 x51 x50) + 2399980690 + w3) % 4294967296;
  let x53 := (x52 + (r53 * 1024 + r53 / 4194304) % 4294967296) % 4294967296;
  let r54 := (x50 + (fI x53 x52 x51) + 4293915773 + w10) % 4294967296;
  let x54 := (x53 + (r54 * 32768 + r54 / 131072) % 4294967296) % 4294967296;
  let r55 := (x51 + (fI x54 x53 x52) + 2240044497 + w1) % 4294967296;
  let x55 := (x54 + (r55 * 2097152 + r55 / 2048) % 4294967296) % 4294967296;
  let r56 := (x52 + (fI x55 x54 x53) + 1873313359 + w8) % 4294967296;
  let x56 := (x55 + (r56 * 64 + r56 / 67108864) % 4294967296) % 4294967296;
  let r57 := (x53 + (fI x56 x55 x54) + 4264355552 + w15) % 4294967296;
  let x57 := (x56 + (r57 * 1024 + r57 / 4194304) % 4294967296) % 4294967296;
  let r58 := (x54 + (fI x57 x56 x55) + 2734768916 + w6) % 4294967296;
  let x58 := (x57 + (r58 * 32768 + r58 / 131072) % 4294967296) % 4294967296;
  let r59 := (x55 + (fI x58 x57 x56) + 1309151649 + w13) % 4294967296;
  let x59 := (x58 + (r59 * 2097152 + r59 / 2048) % 4294967296) % 4294967296;
  let r60 := (x56 + (fI x59 x58 x57) + 4149444226 + w4) % 4294967296;
  let x60 := (x59 + (r60 * 64 + r60 / 67108864) % 4294967296) % 4294967296;
  let r61 := (x57 + (fI x60 x59 x58) + 3174756917 + w11) % 4294967296;
  let x61 := (x60 + (r61 * 1024 + r61 / 4194304) % 4294967296) % 4294967296;
  let r62 := (x58 + (fI x61 x60 x59) + 718787259 + w2) % 4294967296;
  let x62 := (x61 + (r62 * 32768 + r62 / 131072) % 4294967296) % 4294967296;
  let r63 := (x59 + (fI x62 x61 x60) + 3951481745 + w9) % 4294967296;
  let x63 := (x62 + (r63 * 2097152 + r63 / 2048) % 4294967296) % 4294967296;
  ((a0 + x60) % 4294967296, (b0 + x63) % 4294967296, (c0 + x62) % 4294967296, (d0 + x61) % 4294967296)

/-- One MD5 compression round on the block whose words are given by `w`
(queried at indices 0–15). -/
def md5Block (w : Nat → Nat) (s : Nat × Nat × Nat × Nat) : Nat × Nat × Nat × Nat :=
  md5BlockW (w 0) (w 1) (w 2) (w 3) (w 4) (w 5) (w 6) (w 7)
    (w 8) (w 9) (w 10) (w 11) (w 12) (w 13) (w 14) (w 15) s.1 s.2.1 s.2.2.1 s.2.2.2

/-- The MD5 initial chaining state `(A, B, C, D)` of RFC 1321. -/
def md5Init : Nat × Nat × Nat × Nat := (1732584193, 4023233417, 2562383102, 271733878)

/-- Run `n` consecutive MD5 compression rounds starting from state `s`,
using blocks `st, st+1, …, st+n-1` of the word source `w`.
Written with a bare `Nat.rec` so that its unfolding is definitional. -/
def md5BlocksFrom (w : Nat → Nat → Nat) (st : Nat) (s : Nat × Nat × Nat × Nat) (n : Nat) :
    Nat × Nat × Nat × Nat :=
  Nat.rec s (fun k ih => md5Block (w (st + k)) ih) n

/-- Length, in bytes, of an `len`-byte message after MD5 padding:
the padding appends `0x80`, zero bytes, and the 8-byte bit length, up to
the next multiple of 64 with room for the length field. -/
def paddedLen (len : Nat) : Nat := ((len + 8) / 64 + 1) * 64

/-- Byte `j` of the MD5-padded message: the message itself below `len`,
then `0x80`, then zeros, then the little-endian 64-bit bit length in the
last 8 bytes of the padded length `pl`. -/
def paddedByte (len pl : Nat) (byte : Nat → Nat) (j : Nat) : Nat :=
  if j < len then byte j
  else if j = len then 128
  else if j < pl - 8 then 0
  else len * 8 / 2 ^ (8 * (j - (pl - 8))) % 256

/-- Word `g` of block `blk` of the padded message: four consecutive padded
bytes assembled little-endian. -/
def md5Words (len pl : Nat) (byte : Nat → Nat) (blk g : Nat) : Nat :=
  paddedByte len pl byte (64 * blk + 4 * g) +
  256 * paddedByte len pl byte (64 * blk + 4 * g + 1) +
  65536 * paddedByte len pl byte (64 * blk + 4 * g + 2) +
  16777216 * paddedByte len pl byte (64 * blk + 4 * g + 3)

/-- Final MD5 chaining state of the `len`-byte message `byte 0 … byte (len-1)`. -/
def md5State (len : Nat) (byte : Nat → Nat) : Nat × Nat × Nat × Nat :=
  md5BlocksFrom (md5Words len (paddedLen len) byte) 0 md5Init (paddedLen len / 64)

/-- Lowercase hexadecimal digit for a value below 16. -/
def hexDigit (n : Nat) : Char :=
  match n with
  | 0 => '0' | 1 => '1' | 2 => '2' | 3 => '3' | 4 => '4' | 5 => '5' | 6 => '6' | 7 => '7'
  | 8 => '8' | 9 => '9' | 10 => 'a' | 11 => 'b' | 12 => 'c' | 13 => 'd' | 14 => 'e' | _ => 'f'

/-- Two lowercase hex digits of a byte value. -/
def byteHex (b : Nat) : List Char := [hexDigit (b / 16), hexDigit (b % 16)]

/-- Eight lowercase hex digits of a 32-bit word, little-endian byte order
(as MD5 digests are conventionally printed). -/
def wordHex (x : Nat) : List Char :=
  byteHex (x % 256) ++ byteHex (x / 256 % 256) ++ byteHex (x / 65536 % 256) ++
    byteHex (x / 16777216 % 256)

/-- Print an MD5 chaining state as the usual 32-character lowercase hex digest. -/
def md5HexState (s : Nat × Nat × Nat × Nat) : String :=
  String.mk (wordHex s.1 ++ wordHex s.2.1 ++ wordHex s.2.2.1 ++ wordHex s.2.2.2)

/-- The lowercase-hex MD5 digest of the `len`-byte message `byte`.
This is the model of `format!("{:x}", ctx.compute())` for an `md5::Context`
fed exactly those bytes. -/
def md5Hex (len : Nat) (byte : Nat → Nat) : String :=
  md5HexState (md5State len byte)

/-- The lowercase-hex MD5 digest of the bytes of a list. -/
def md5HexOfBytes (bs : List Nat) : String :=
  md5Hex bs.length (fun i => bs.getD i 0)

/-! Deduplication checksums (`identify/src/deduplication.rs`)

`dedupe_md5` reads the content through a 1 MB buffer (`bytesize::MB =
1_000_000`):

```rust
let mut ctx = md5::Context::new();
let mut buf = Box::new([0; MB as usize]);
while content.read(buf.deref_mut()).await? > 0 {
    ctx.consume(buf.deref());
}
```

Note that `ctx.consume(buf.deref())` feeds the ENTIRE buffer to the digest
on every iteration, regardless of how many bytes `read` returned.  The
readers the crate uses (a `tokio::fs::File` over a regular file, and a
`Cursor` over an in-memory vector) deterministically return
`min MB remaining` bytes per `read` call, so after read `r` the buffer
holds the bytes of read `r` in its first positions and, beyond them,
whatever the buffer held before (zeros initially).  The digest therefore
covers `numReads · MB` bytes. -/

/-- The buffer size `bytesize::MB` of the deduplication read loops. -/
def MB : Nat := 1000000

/-- Number of `read` calls returning a positive count for a content of
`len` bytes when every read returns `min MB remaining`. -/
def numReads (len : Nat) : Nat := (len + (MB - 1)) / MB

/-- Content of the read buffer at offset `o < MB` after read number `r`
(0-based) of a `len`-byte content `byte`: bytes covered by read `r` come
from the content, the rest is left over from earlier reads (zeros before
the first read). -/
def bufferAfter (len : Nat) (byte : Nat → Nat) : Nat → Nat → Nat
  | 0, o => if o < min MB len then byte o else 0
  | r + 1, o => if (r + 1) * MB + o < len then byte ((r + 1) * MB + o) else
      bufferAfter len byte r o

/-- Embedding of `dedupe_md5`: the MD5 digest of the concatenation of the
full 1 MB buffer after each read — `numReads len · MB` bytes in all, byte
`j` being the buffer content at offset `j % MB` after read `j / MB`. -/
def dedupe_md5 (len : Nat) (byte : Nat → Nat) : String :=
  md5Hex (numReads len * MB) (fun j => bufferAfter len byte (j / MB) (j % MB))

/-- Embedding of `dedupe_message`: the whole content is read into a vector,
`mail_parser` is asked for the `Message-ID` header, and `dedupe_md5` is run
over a cursor on the raw id bytes when one was parsed, otherwise over a
cursor on the full content.  The outcome of the external `mail_parser`
call is passed in as `parsedId` (the raw id bytes, `none` when parsing
fails or the header is absent). -/
def dedupe_message (parsedId : Option (List Nat)) (len : Nat) (byte : Nat → Nat) : String :=
  match parsedId with
  | some id => dedupe_md5 id.length (fun i => id.getD i 0)
  | none => dedupe_md5 len byte

/-- Embedding of `dedupe_checksum` (and of `dedupe_checksum_from_path`,
which opens the file and runs the same logic on its contents): dispatch on
the mimetype string, `message/rfc822` to `dedupe_message`, everything else
to `dedupe_md5`.  `parsedId` is the `mail_parser` outcome, consulted only
in the `message/rfc822` branch. -/
def dedupe_checksum (parsedId : Option (List Nat)) (mimetype : String) (len : Nat)
    (byte : Nat → Nat) : String :=
  if mimetype = "message/rfc822" then dedupe_message parsedId len byte
  else dedupe_md5 len byte

/-- The bytes of `"Hello, world!"`. -/
def helloBytes : List Nat := [72, 101, 108, 108, 111, 44, 32, 119, 111, 114, 108, 100, 33]

/-- Byte function of `"Hello, world!"` (zero beyond its 13 bytes). -/
def helloByte (j : Nat) : Nat := helloBytes.getD j 0

/-! The padded words of the buffered Hello-world input -/


/-! The `"Hello, world!"` buffered digest, brought into evaluable form

The buffered content is `"Hello, world!"` followed by zeros up to 1 MB.
Its padded-message word source is almost everywhere zero; `helloWordFast`
is the sparse closed form, proved pointwise equal on the indices the
compression rounds consult. -/

/-- The 1 MB buffer contents for input `"Hello, world!"`: its 13 bytes,
then zeros. -/
def helloPadded (j : Nat) : Nat := if j < 13 then helloByte j else 0

/-- Closed form of the padded-message words of the 1 MB buffer holding
`"Hello, world!"`: block 0 starts with the 13 content bytes, blocks 1–15624
are all zero, block 15625 is the MD5 padding block (`0x80`, zeros, and the
bit length `8000000` little-endian). -/
def helloWordFast (blk g : Nat) : Nat :=
  if blk = 0 then
    (if g = 0 then 1819043144 else if g = 1 then 1998597231 else if g = 2 then 1684828783
      else if g = 3 then 33 else 0)
  else if blk = 15625 then
    (if g = 0 then 128 else if g = 14 then 8000000 else 0)
  else 0


/-! Derivation kinds and the dispatch table
(`processing/src/processing/processor.rs`, `processing/src/processing/mod.rs`) -/

/-- The four derivation kinds (`ProcessType` in the source). -/
inductive ProcessType where
  | text
  | metadata
  | pdf
  | embedded
deriving DecidableEq, Repr

/-- The concrete strategies the dispatch table can resolve (the boxed
`Process` implementations of the source). -/
inductive ProcName where
  | defaultText
  | defaultMetadata
  | rfc822Pdf
  | zipEmbedded
  | mboxEmbedded
  | rfc822Embedded
deriving DecidableEq, Repr

/-- Embedding of `Processor::text_processor`.  The excluded-mimetype match
arm list is reproduced verbatim from the source — including the trailing
space in its first pattern, `"text/plain "`. -/
def text_processor (mimetype : String) : Option ProcName :=
  match mimetype with
  | "text/plain " | "text/css" | "text/csv" | "text/javascript" | "application/zip"
  | "application/mbox" => none
  | _ => some ProcName.defaultText

/-- Embedding of `Processor::metadata_processor`: every mimetype gets the
default metadata processor. -/
def metadata_processor (_ : String) : Option ProcName :=
  some ProcName.defaultMetadata

/-- Embedding of `Processor::pdf_processor`: only `message/rfc822`. -/
def pdf_processor (mimetype : String) : Option ProcName :=
  match mimetype with
  | "message/rfc822" => some ProcName.rfc822Pdf
  | _ => none

/-- Embedding of `Processor::embedded_processor`. -/
def embedded_processor (mimetype : String) : Option ProcName :=
  match mimetype with
  | "application/zip" => some ProcName.zipEmbedded
  | "application/mbox" => some ProcName.mboxEmbedded
  | "message/rfc822" => some ProcName.rfc822Embedded
  | _ => none

/-- Embedding of `Processor::determine_processors`: for each requested
kind, in the fixed order Text, Metadata, Pdf, Embedded, push the resolved
strategy if the corresponding sub-table has an entry. -/
def determine_processors (mimetype : String) (types : List ProcessType) : List ProcName :=
  (if types.contains ProcessType.text then (text_processor mimetype).toList else []) ++
  (if types.contains ProcessType.metadata then (metadata_processor mimetype).toList else []) ++
  (if types.contains ProcessType.pdf then (pdf_processor mimetype).toList else []) ++
  (if types.contains ProcessType.embedded then (embedded_processor mimetype).toList else [])

/-! The join of the launched strategies (`Processor::process`)

`Processor::process` launches one future per resolved strategy and awaits
them through `futures::future::try_join_all`.  The timed model below
follows the crate's documented semantics: the join polls its futures in
order; at the first poll at which some future has completed with an error
it resolves to that error immediately, cancelling the rest; only when all
futures complete without error does it resolve `Ok`, at the time the last
one finishes.  A strategy run is modelled by its finish time and result. -/

instance {ε α : Type} [DecidableEq ε] [DecidableEq α] : DecidableEq (Except ε α) := fun a b =>
  match a, b with
  | Except.ok x, Except.ok y =>
      if h : x = y then isTrue (by rw [h]) else isFalse (fun hc => h (Except.ok.inj hc))
  | Except.error x, Except.error y =>
      if h : x = y then isTrue (by rw [h]) else isFalse (fun hc => h (Except.error.inj hc))
  | Except.ok _, Except.error _ => isFalse (fun hc => Except.noConfusion hc)
  | Except.error _, Except.ok _ => isFalse (fun hc => Except.noConfusion hc)

/-- A launched strategy: when it finishes, and with what result. -/
structure StratRun where
  finish : Nat
  result : Except String Unit
deriving DecidableEq, Repr

/-- The error of the first strategy, in launch order, that has finished
with an error by time `t` (`none` when there is none). -/
def firstErrAmong (t : Nat) : List StratRun → Option String
  | [] => none
  | r :: rs =>
      if r.finish ≤ t then
        match r.result with
        | Except.error e => some e
        | Except.ok _ => firstErrAmong t rs
      else firstErrAmong t rs

/-- Whether every strategy has finished by time `t`. -/
def allDoneBy (t : Nat) (rs : List StratRun) : Bool :=
  rs.all (fun r => r.finish ≤ t)

/-- Latest finish time among the strategies. -/
def maxFinish (rs : List StratRun) : Nat :=
  rs.foldr (fun r acc => max r.finish acc) 0

/-- Earliest finish time among the strategies that fail, if any fails. -/
def minErrTime : List StratRun → Option Nat
  | [] => none
  | r :: rs =>
      match r.result, minErrTime rs with
      | Except.error _, some m => some (min r.finish m)
      | Except.error _, none => some r.finish
      | Except.ok _, m => m

/-- The polling loop of `try_join_all`: step time forward; resolve with the
first error seen, or with `Ok` once all strategies are done.  `fuel` bounds
the loop; it is always called with enough fuel to reach `maxFinish`. -/
def joinLoop (rs : List StratRun) : Nat → Nat → Nat × Except String Unit
  | t, 0 =>
      match firstErrAmong t rs with
      | some e => (t, Except.error e)
      | none => (t, Except.ok ())
  | t, fuel + 1 =>
      match firstErrAmong t rs with
      | some e => (t, Except.error e)
      | none =>
          if allDoneBy t rs then (t, Except.ok ()) else joinLoop rs (t + 1) fuel

/-- Timed model of `futures::future::try_join_all` on the launched
strategies: the pair of the time at which the join resolves and its
result. -/
def try_join_all (rs : List StratRun) : Nat × Except String Unit :=
  joinLoop rs 0 (maxFinish rs)

/-- Timed model of `Processor::process` after the checksum step: resolve
the strategies for the context's mimetype and requested kinds, launch them
all, and join them with `try_join_all`.  `runOf` assigns each launched
strategy its finish time and result. -/
def Processor.process (mimetype : String) (types : List ProcessType)
    (runOf : ProcName → StratRun) : Nat × Except String Unit :=
  try_join_all ((determine_processors mimetype types).map runOf)

/-! MIME identification (`identify/src/mimetype.rs`)

The three external identifiers (the `xdg-mime` subprocess, the Tika
detection endpoint, and the embedded `file_format` table) are injected as
their call outcomes: `Except.ok m` for a returned mimetype string, or
`Except.error _` for a hard failure. -/

/-- Embedding of `identify_using_xdg_mime`: accept the answer unless it is
`application/octet-stream` or `text/plain`. -/
def identify_using_xdg_mime (query : Except String String) : Except String (Option String) :=
  query.map fun m =>
    if m ≠ "application/octet-stream" ∧ m ≠ "text/plain" then some m else none

/-- Embedding of `identify_using_tika`: accept the answer unless it is
`application/octet-stream`. -/
def identify_using_tika (detect : Except String String) : Except String (Option String) :=
  detect.map fun m => if m ≠ "application/octet-stream" then some m else none

/-- Embedding of `identify_using_file_format`: accept the answer unless it
is `application/octet-stream`. -/
def identify_using_file_format (probe : Except String String) : Except String (Option String) :=
  probe.map fun m => if m ≠ "application/octet-stream" then some m else none

/-- Embedding of `identify_mimetype`: try the three identifiers in order,
returning the first accepted answer, `none` when none accepts, and the
first hard error otherwise (the `?` operator propagates hard errors). -/
def identify_mimetype (xdg tika probe : Except String String) :
    Except String (Option String) :=
  match identify_using_xdg_mime xdg with
  | Except.error e => Except.error e
  | Except.ok (some m) => Except.ok (some m)
  | Except.ok none =>
    match identify_using_tika tika with
    | Except.error e => Except.error e
    | Except.ok (some m) => Except.ok (some m)
    | Except.ok none =>
      match identify_using_file_format probe with
      | Except.error e => Except.error e
      | Except.ok (some m) => Except.ok (some m)
      | Except.ok none => Except.ok none

/-! Processing context and outputs (`processing/src/processing/mod.rs`) -/

/-- Embedding of `ProcessState`: the chain of ancestor checksums. -/
structure ProcessState where
  id_chain : List String
deriving DecidableEq, Repr

/-- Embedding of `ProcessContext`.  The `tokio` output-channel sender is
modelled by an abstract numeric handle; `Sender::clone` yields the same handle. -/
structure ProcessContext where
  mimetype : String
  types : List ProcessType
  state : ProcessState
  output_sink : Nat
deriving DecidableEq, Repr

/-- Embedding of `ProcessContext::new_clone`: a context with the given
mimetype whose remaining fields are cloned from `self`. -/
def ProcessContext.new_clone (self : ProcessContext) (mimetype : String) : ProcessContext :=
  { mimetype := mimetype
    types := self.types
    output_sink := self.output_sink
    state := self.state }

/-- The per-artifact data of `ProcessOutputData` that the archive-path
construction consults (name and checksum). -/
structure ProcessOutputData where
  name : String
  mimetype : String
  checksum : String
deriving DecidableEq, Repr

/-- Embedding of `ProcessOutput`: a derived (`Processed`) or discovered
(`Embedded`) artifact, with the producing context's state.  The embedded
variant's extra channel sender plays no role in path construction and is
omitted. -/
inductive ProcessOutput where
  | processed (state : ProcessState) (data : ProcessOutputData)
  | embedded (state : ProcessState) (data : ProcessOutputData)
deriving DecidableEq, Repr

/-! Archive paths (`cli/src/main.rs`) -/

/-- Model of `PathBuf::push` for the relative components used here: paths
are strings, pushing onto the empty path yields the component itself,
otherwise a `/` separator is inserted. -/
def pathPush (p c : String) : String :=
  if p = "" then c else p ++ "/" ++ c

/-- Embedding of `build_archive_path`: push every chain id onto an empty
path, then push the leaf name. -/
def build_archive_path (id_chain : List String) (name : String) : String :=
  pathPush (List.foldl pathPush "" id_chain) name

/-- The archive path `handle_process_output` assigns to an output: a
`Processed` artifact lives under the producing state's chain; an
`Embedded` artifact's chain is first extended by its own checksum. -/
def archive_path_of : ProcessOutput → String
  | ProcessOutput.processed st d => build_archive_path st.id_chain d.name
  | ProcessOutput.embedded st d => build_archive_path (st.id_chain ++ [d.checksum]) d.name

/-- The path the specification describes: the chain entries joined as
directory components with `/`, followed by the leaf name. -/
def specJoin : List String → String
  | [] => ""
  | [c] => c
  | c :: cs => c ++ "/" ++ specJoin cs

/-- Spec-side archive path: chain components in order, then the leaf. -/
def specArchivePath (chain : List String) (leaf : String) : String :=
  specJoin (chain ++ [leaf])

/-! Renderer exit-code handling (`processing/src/pdf/rfc822/pdf.rs`)

`render_html_to_pdf` runs the `wkhtmltopdf` subprocess through
`HtmlToPdf::run`; a failed run surfaces as a `CommandError` carrying the
exit status when the process ran (`CommandError::exit_code`), and the
strategy coerces the error to success exactly when that code is 1. -/

/-- A failure of the renderer run: a `CommandError` with its optional exit
code, or any other error. -/
inductive RenderError where
  | command (exitCode : Option Int)
  | other (msg : String)
deriving DecidableEq, Repr

/-- The `CommandError::exit_code` of a renderer failure: the exit code when the
error is a `CommandError` whose exit status carries a code. -/
def exit_code : RenderError → Option Int
  | RenderError.command c => c
  | RenderError.other _ => none

/-- The source's `e.exit_code().is_some_and(|code| code == 1)` test. -/
def exitCodeIsOne (e : RenderError) : Bool :=
  match exit_code e with
  | some code => code == 1
  | none => false

/-- Embedding of `Rfc822PdfProcessor::render_html_to_pdf`: a failed run
whose error downcasts to a `CommandError` with exit code 1 is coerced to
success; every other outcome is passed through. -/
def render_html_to_pdf (runResult : Except RenderError Unit) : Except RenderError Unit :=
  match runResult with
  | Except.error e => if exitCodeIsOne e then Except.ok () else Except.error e
  | Except.ok v => Except.ok v

/-- Embedding of the tail of `Rfc822PdfProcessor::render_pdf`: when the
render is treated as successful, whatever the renderer wrote to its
output buffer (possibly nothing) is written out. -/
def render_pdf (runResult : Except RenderError Unit) (pdfBytes : List Nat) :
    Except RenderError (List Nat) :=
  match render_html_to_pdf runResult with
  | Except.ok _ => Except.ok pdfBytes
  | Except.error e => Except.error e

/-- The strategies `Processor::process` launches for a given context. -/
def launchedRuns (mimetype : String) (types : List ProcessType)
    (runOf : ProcName → StratRun) : List StratRun :=
  (determine_processors mimetype types).map runOf

/-- Strategy-run assignment in which the text strategy fails at time 2 while
every other strategy keeps running until time 5. -/
def cexRun : ProcName → StratRun
  | ProcName.defaultText => ⟨2, Except.error "text strategy failed"⟩
  | _ => ⟨5, Except.ok ()⟩


set_option maxRecDepth 2000000
set_option maxHeartbeats 400000000

/-! Congruence and reduction lemmas -/

/-! Congruence lemmas for the MD5 model

`md5Block` consults its word source only at indices 0–15, and the padded
byte stream consults the content only below its length.  These lemmas let
a word source be replaced by a pointwise-equal one, which is how the
1 MB buffered digests are brought into an evaluable form. -/

theorem md5Block_congr {w w' : Nat → Nat} (h : ∀ g, g < 16 → w g = w' g)
    (s : Nat × Nat × Nat × Nat) : md5Block w s = md5Block w' s := by
  unfold md5Block
  rw [h 0 (by norm_num), h 1 (by norm_num), h 2 (by norm_num), h 3 (by norm_num),
    h 4 (by norm_num), h 5 (by norm_num), h 6 (by norm_num), h 7 (by norm_num),
    h 8 (by norm_num), h 9 (by norm_num), h 10 (by norm_num), h 11 (by norm_num),
    h 12 (by norm_num), h 13 (by norm_num), h 14 (by norm_num), h 15 (by norm_num)]

theorem md5BlocksFrom_congr {w w' : Nat → Nat → Nat}
    (h : ∀ k g, g < 16 → w k g = w' k g) (st : Nat) (s : Nat × Nat × Nat × Nat) :
    ∀ n, md5BlocksFrom w st s n = md5BlocksFrom w' st s n := by
  intro n
  induction n with
  | zero => rfl
  | succ n ih =>
      show md5Block (w (st + n)) (md5BlocksFrom w st s n) =
        md5Block (w' (st + n)) (md5BlocksFrom w' st s n)
      rw [ih]
      exact md5Block_congr (fun g hg => h (st + n) g hg) _

theorem paddedByte_congr {f g : Nat → Nat} (len pl : Nat)
    (h : ∀ j, j < len → f j = g j) (j : Nat) :
    paddedByte len pl f j = paddedByte len pl g j := by
  unfold paddedByte
  by_cases hj : j < len
  · rw [if_pos hj, if_pos hj, h j hj]
  · rw [if_neg hj, if_neg hj]

theorem md5Hex_congr {f g : Nat → Nat} (len : Nat) (h : ∀ j, j < len → f j = g j) :
    md5Hex len f = md5Hex len g := by
  unfold md5Hex md5State
  have hw : ∀ k gg, gg < 16 →
      md5Words len (paddedLen len) f k gg = md5Words len (paddedLen len) g k gg := by
    intro k gg _
    unfold md5Words
    rw [paddedByte_congr len (paddedLen len) h, paddedByte_congr len (paddedLen len) h,
      paddedByte_congr len (paddedLen len) h, paddedByte_congr len (paddedLen len) h]
  rw [md5BlocksFrom_congr hw 0 md5Init (paddedLen len / 64)]

theorem md5BlocksFrom_add (w : Nat → Nat → Nat) (st : Nat) (s : Nat × Nat × Nat × Nat)
    (a : Nat) : ∀ b, md5BlocksFrom w st s (a + b) =
      md5BlocksFrom w (st + a) (md5BlocksFrom w st s a) b := by
  intro b
  induction b with
  | zero => rfl
  | succ b ih =>
      show md5Block (w (st + (a + b))) (md5BlocksFrom w st s (a + b)) =
        md5Block (w (st + a + b)) (md5BlocksFrom w (st + a) (md5BlocksFrom w st s a) b)
      rw [ih, Nat.add_assoc]

/-! The read-buffer digest on contents of at most one buffer -/

theorem numReads_one (len : Nat) (h0 : 0 < len) (h1 : len ≤ MB) : numReads len = 1 := by
  unfold numReads MB at *
  omega

/-- For non-empty contents of at most 1 MB there is exactly one read, so
`dedupe_md5` digests the contents zero-padded to exactly 1 MB. -/
theorem dedupe_md5_small (len : Nat) (byte : Nat → Nat) (h0 : 0 < len) (h1 : len ≤ MB) :
    dedupe_md5 len byte = md5Hex MB (fun j => if j < len then byte j else 0) := by
  unfold dedupe_md5
  rw [numReads_one len h0 h1, one_mul]
  apply md5Hex_congr
  intro j hj
  rw [Nat.div_eq_of_lt hj, Nat.mod_eq_of_lt hj]
  show (if j < min MB len then byte j else 0) = _
  rw [min_eq_right h1]

theorem helloWords_eq : ∀ blk g, g < 16 →
    md5Words MB (paddedLen MB) helloPadded blk g = helloWordFast blk g := by
  intro blk g hg
  by_cases h0 : blk = 0
  · subst h0; interval_cases g <;> decide
  · by_cases h1 : blk = 15625
    · subst h1; interval_cases g <;> decide
    · have hW : helloWordFast blk g = 0 := by unfold helloWordFast; rw [if_neg h0, if_neg h1]
      rw [hW]
      by_cases h2 : blk < 15625
      · -- blocks 1–15624: inside the zero tail of the buffer
        have key : ∀ j, 13 ≤ j → j < MB →
            paddedByte MB (paddedLen MB) helloPadded j = 0 := by
          intro j hge hlt
          unfold paddedByte
          rw [if_pos hlt]
          unfold helloPadded
          rw [if_neg (by omega)]
        have hMB : MB = 1000000 := rfl
        unfold md5Words
        rw [key _ (by omega) (by omega), key _ (by omega) (by omega),
          key _ (by omega) (by omega), key _ (by omega) (by omega)]
      · -- blocks beyond the padding block: everything past the bit length
        have key : ∀ j, 1000064 ≤ j →
            paddedByte MB (paddedLen MB) helloPadded j = 0 := by
          intro j hge
          have hpl : paddedLen MB = 1000064 := rfl
          have hMB : MB = 1000000 := rfl
          unfold paddedByte
          rw [hpl, hMB]
          rw [if_neg (by omega), if_neg (by omega), if_neg (by omega)]
          have h64 : 64 ≤ 8 * (j - (1000064 - 8)) := by omega
          have hlt : 1000000 * 8 < 2 ^ (8 * (j - (1000064 - 8))) :=
            lt_of_lt_of_le (by norm_num) (Nat.pow_le_pow_right (by norm_num) h64)
          rw [Nat.div_eq_of_lt hlt]
        have hMB : MB = 1000000 := rfl
        unfold md5Words
        rw [key _ (by omega), key _ (by omega), key _ (by omega), key _ (by omega)]

theorem helloState_eq :
    md5State MB helloPadded = md5BlocksFrom helloWordFast 0 md5Init 15626 := by
  unfold md5State
  have h : paddedLen MB / 64 = 15626 := rfl
  rw [h]
  exact md5BlocksFrom_congr helloWords_eq 0 md5Init 15626

/-! Chunked evaluation of the 15626 compression rounds

Evaluating all rounds in one kernel reduction exceeds the type checker's
stack, so the run is split into 250-round chunks with explicit
intermediate states, glued by `md5BlocksFrom_add`. -/

theorem helloChunk0 : md5BlocksFrom helloWordFast 0 md5Init 250 =
    (279817166, 3987420338, 1418082271, 1846750817) := by decide

theorem helloChunk1 : md5BlocksFrom helloWordFast 250 (279817166, 3987420338, 1418082271, 1846750817) 250 =
    (2118697192, 1528047371, 1132127217, 4067375048) := by decide

theorem helloChunk2 : md5BlocksFrom helloWordFast 500 (2118697192, 1528047371, 1132127217, 4067375048) 250 =
    (1469695954, 3672304470, 415794941, 524268982) := by decide

theorem helloChunk3 : md5BlocksFrom helloWordFast 750 (1469695954, 3672304470, 415794941, 524268982) 250 =
    (2358050857, 272057744, 2599355425, 3719496069) := by decide

theorem helloChunk4 : md5BlocksFrom helloWordFast 1000 (2358050857, 272057744, 2599355425, 3719496069) 250 =
    (977194880, 3215864386, 2243891343, 4174238533) := by decide

theorem helloChunk5 : md5BlocksFrom helloWordFast 1250 (977194880, 3215864386, 2243891343, 4174238533) 250 =
    (924045534, 1537839465, 1423865311, 3311767357) := by decide

theorem helloChunk6 : md5BlocksFrom helloWordFast 1500 (924045534, 1537839465, 1423865311, 3311767357) 250 =
    (1669472020, 23180540, 1826779267, 2694337039) := by decide

theorem helloChunk7 : md5BlocksFrom helloWordFast 1750 (1669472020, 23180540, 1826779267, 2694337039) 250 =
    (2506288974, 3263713427, 4282540181, 3013073649) := by decide

theorem helloChunk8 : md5BlocksFrom helloWordFast 2000 (2506288974, 3263713427, 4282540181, 3013073649) 250 =
    (453306253, 363923787, 2402198098, 3810824751) := by decide

theorem helloChunk9 : md5BlocksFrom helloWordFast 2250 (453306253, 363923787, 2402198098, 3810824751) 250 =
    (1651606902, 2976221364, 3413205264, 618254484) := by decide

theorem helloChunk10 : md5BlocksFrom helloWordFast 2500 (1651606902, 2976221364, 3413205264, 618254484) 250 =
    (3531729101, 1218245231, 2364621210, 3255329944) := by decide

theorem helloChunk11 : md5BlocksFrom helloWordFast 2750 (3531729101, 1218245231, 2364621210, 3255329944) 250 =
    (3238414553, 1113412322, 2235090968, 507004125) := by decide

theorem helloChunk12 : md5BlocksFrom helloWordFast 3000 (3238414553, 1113412322, 2235090968, 507004125) 250 =
    (2022164177, 719339565, 1806023190, 4105080835) := by decide

theorem helloChunk13 : md5BlocksFrom helloWordFast 3250 (2022164177, 719339565, 1806023190, 4105080835) 250 =
    (2583190189, 2793802784, 285839012, 2291378072) := by decide

theorem helloChunk14 : md5BlocksFrom helloWordFast 3500 (2583190189, 2793802784, 285839012, 2291378072) 250 =
    (3838313861, 978373153, 2120929392, 2500645483) := by decide

theorem helloChunk15 : md5BlocksFrom helloWordFast 3750 (3838313861, 978373153, 2120929392, 2500645483) 250 =
    (3682971947, 1001681280, 3697313081, 3833346641) := by decide

theorem helloChunk16 : md5BlocksFrom helloWordFast 4000 (3682971947, 1001681280, 3697313081, 3833346641) 250 =
    (2586265141, 2464452573, 2488557549, 1336275740) := by decide

theorem helloChunk17 : md5BlocksFrom helloWordFast 4250 (2586265141, 2464452573, 2488557549, 1336275740) 250 =
    (588823132, 666456420, 1327807729, 277925300) := by decide

theorem helloChunk18 : md5BlocksFrom helloWordFast 4500 (588823132, 666456420, 1327807729, 277925300) 250 =
    (608960079, 1788820787, 3875486991, 2252980983) := by decide

theorem helloChunk19 : md5BlocksFrom helloWordFast 4750 (608960079, 1788820787, 3875486991, 2252980983) 250 =
    (793459018, 1957138016, 2883777014, 1506904881) := by decide

theorem helloChunk20 : md5BlocksFrom helloWordFast 5000 (793459018, 1957138016, 2883777014, 1506904881) 250 =
    (1202918165, 2240243099, 2948130163, 2907674833) := by decide

theorem helloChunk21 : md5BlocksFrom helloWordFast 5250 (1202918165, 2240243099, 2948130163, 2907674833) 250 =
    (1944344704, 3120835297, 4091601199, 2863112132) := by decide

theorem helloChunk22 : md5BlocksFrom helloWordFast 5500 (1944344704, 3120835297, 4091601199, 2863112132) 250 =
    (2031704708, 1942917886, 2262973988, 3589524585) := by decide

theorem helloChunk23 : md5BlocksFrom helloWordFast 5750 (2031704708, 1942917886, 2262973988, 3589524585) 250 =
    (1828059008, 4224851268, 2901837598, 967860497) := by decide

theorem helloChunk24 : md5BlocksFrom helloWordFast 6000 (1828059008, 4224851268, 2901837598, 967860497) 250 =
    (996911204, 3111626882, 3006520364, 2627551367) := by decide

theorem helloChunk25 : md5BlocksFrom helloWordFast 6250 (996911204, 3111626882, 3006520364, 2627551367) 250 =
    (1671036064, 2014221269, 3624999084, 203762518) := by decide

theorem helloChunk26 : md5BlocksFrom helloWordFast 6500 (1671036064, 2014221269, 3624999084, 203762518) 250 =
    (2036394135, 129410767, 1093742154, 1493144027) := by decide

theorem helloChunk27 : md5BlocksFrom helloWordFast 6750 (2036394135, 129410767, 1093742154, 1493144027) 250 =
    (3718709250, 1942781575, 617193022, 2813032396) := by decide

theorem helloChunk28 : md5BlocksFrom helloWordFast 7000 (3718709250, 1942781575, 617193022, 2813032396) 250 =
    (2691401769, 2641852271, 3126282726, 3389396771) := by decide

theorem helloChunk29 : md5BlocksFrom helloWordFast 7250 (2691401769, 2641852271, 3126282726, 3389396771) 250 =
    (4000069475, 2323996637, 1190681098, 745004470) := by decide

theorem helloChunk30 : md5BlocksFrom helloWordFast 7500 (4000069475, 2323996637, 1190681098, 745004470) 250 =
    (3978125147, 1836660225, 3048665422, 3659624382) := by decide

theorem helloChunk31 : md5BlocksFrom helloWordFast 7750 (3978125147, 1836660225, 3048665422, 3659624382) 250 =
    (4283647200, 2638495032, 1975905345, 3513153642) := by decide

theorem helloChunk32 : md5BlocksFrom helloWordFast 8000 (4283647200, 2638495032, 1975905345, 3513153642) 250 =
    (809313396, 1668499138, 731997505, 3696440382) := by decide

theorem helloChunk33 : md5BlocksFrom helloWordFast 8250 (809313396, 1668499138, 731997505, 3696440382) 250 =
    (2813569412, 1993542220, 611388312, 3730704711) := by decide

theorem helloChunk34 : md5BlocksFrom helloWordFast 8500 (2813569412, 1993542220, 611388312, 3730704711) 250 =
    (1729878416, 2154959944, 1380842437, 1347860533) := by decide

theorem helloChunk35 : md5BlocksFrom helloWordFast 8750 (1729878416, 2154959944, 1380842437, 1347860533) 250 =
    (610827617, 1504535842, 2007879569, 489896259) := by decide

theorem helloChunk36 : md5BlocksFrom helloWordFast 9000 (610827617, 1504535842, 2007879569, 489896259) 250 =
    (2757068915, 3988247544, 774948366, 3919867261) := by decide

theorem helloChunk37 : md5BlocksFrom helloWordFast 9250 (2757068915, 3988247544, 774948366, 3919867261) 250 =
    (1909075566, 1435507791, 3084194999, 2482524039) := by decide

theorem helloChunk38 : md5BlocksFrom helloWordFast 9500 (1909075566, 1435507791, 3084194999, 2482524039) 250 =
    (3564376634, 2736729184, 974714406, 3207485485) := by decide

theorem helloChunk39 : md5BlocksFrom helloWordFast 9750 (3564376634, 2736729184, 974714406, 3207485485) 250 =
    (295189923, 1671874241, 1486809314, 1646305476) := by decide

theorem helloChunk40 : md5BlocksFrom helloWordFast 10000 (295189923, 1671874241, 1486809314, 1646305476) 250 =
    (2613190766, 878561821, 2295331946, 899462625) := by decide

theorem helloChunk41 : md5BlocksFrom helloWordFast 10250 (2613190766, 878561821, 2295331946, 899462625) 250 =
    (275269938, 1952210888, 1080078057, 171515975) := by decide

theorem helloChunk42 : md5BlocksFrom helloWordFast 10500 (275269938, 1952210888, 1080078057, 171515975) 250 =
    (3968575081, 3049458250, 565561935, 4129701960) := by decide

theorem helloChunk43 : md5BlocksFrom helloWordFast 10750 (3968575081, 3049458250, 565561935, 4129701960) 250 =
    (2381914571, 3365840288, 3240678025, 2935463127) := by decide

theorem helloChunk44 : md5BlocksFrom helloWordFast 11000 (2381914571, 3365840288, 3240678025, 2935463127) 250 =
    (2618466828, 860838192, 2045014204, 1610186242) := by decide

theorem helloChunk45 : md5BlocksFrom helloWordFast 11250 (2618466828, 860838192, 2045014204, 1610186242) 250 =
    (1043771025, 4062682210, 1600232700, 4064097329) := by decide

theorem helloChunk46 : md5BlocksFrom helloWordFast 11500 (1043771025, 4062682210, 1600232700, 4064097329) 250 =
    (2721135718, 1222519401, 2875836359, 498592076) := by decide

theorem helloChunk47 : md5BlocksFrom helloWordFast 11750 (2721135718, 1222519401, 2875836359, 498592076) 250 =
    (1118541887, 2629240042, 1078761569, 1033557956) := by decide

theorem helloChunk48 : md5BlocksFrom helloWordFast 12000 (1118541887, 2629240042, 1078761569, 1033557956) 250 =
    (3739632317, 943260914, 1743446007, 1848227289) := by decide

theorem helloChunk49 : md5BlocksFrom helloWordFast 12250 (3739632317, 943260914, 1743446007, 1848227289) 250 =
    (2170169783, 1882826971, 1321461377, 3202494383) := by decide

theorem helloChunk50 : md5BlocksFrom helloWordFast 12500 (2170169783, 1882826971, 1321461377, 3202494383) 250 =
    (3112134304, 3064828056, 3056675218, 3744001918) := by decide

theorem helloChunk51 : md5BlocksFrom helloWordFast 12750 (3112134304, 3064828056, 3056675218, 3744001918) 250 =
    (3806006726, 661235011, 2555262030, 1856379234) := by decide

theorem helloChunk52 : md5BlocksFrom helloWordFast 13000 (3806006726, 661235011, 2555262030, 1856379234) 250 =
    (4000380079, 3261004121, 2684227606, 1312817783) := by decide

theorem helloChunk53 : md5BlocksFrom helloWordFast 13250 (4000380079, 3261004121, 2684227606, 1312817783) 250 =
    (1130160762, 1716143996, 1447067397, 1156809654) := by decide

theorem helloChunk54 : md5BlocksFrom helloWordFast 13500 (1130160762, 1716143996, 1447067397, 1156809654) 250 =
    (3927525998, 374161928, 2350003914, 2762389166) := by decide

theorem helloChunk55 : md5BlocksFrom helloWordFast 13750 (3927525998, 374161928, 2350003914, 2762389166) 250 =
    (2458350134, 1370972752, 3213149775, 446935418) := by decide

theorem helloChunk56 : md5BlocksFrom helloWordFast 14000 (2458350134, 1370972752, 3213149775, 446935418) 250 =
    (1993371111, 2479606918, 574718907, 2369358623) := by decide

theorem helloChunk57 : md5BlocksFrom helloWordFast 14250 (1993371111, 2479606918, 574718907, 2369358623) 250 =
    (3180323892, 1747654173, 3342464214, 3795992043) := by decide

theorem helloChunk58 : md5BlocksFrom helloWordFast 14500 (3180323892, 1747654173, 3342464214, 3795992043) 250 =
    (3859758446, 4239933306, 3014037496, 188655338) := by decide

theorem helloChunk59 : md5BlocksFrom helloWordFast 14750 (3859758446, 4239933306, 3014037496, 188655338) 250 =
    (2222332444, 3648434059, 3908136082, 1536046707) := by decide

theorem helloChunk60 : md5BlocksFrom helloWordFast 15000 (2222332444, 3648434059, 3908136082, 1536046707) 250 =
    (2232129622, 2976786862, 2923510281, 828166875) := by decide

theorem helloChunk61 : md5BlocksFrom helloWordFast 15250 (2232129622, 2976786862, 2923510281, 828166875) 250 =
    (4087556308, 1578666567, 926670449, 2020476222) := by decide

theorem helloChunk62 : md5BlocksFrom helloWordFast 15500 (4087556308, 1578666567, 926670449, 2020476222) 126 =
    (3177828284, 2546401649, 3049822386, 1603705650) := by decide

theorem helloFastState : md5BlocksFrom helloWordFast 0 md5Init 15626 =
    (3177828284, 2546401649, 3049822386, 1603705650) := by
  calc md5BlocksFrom helloWordFast 0 md5Init 15626
      _ = md5BlocksFrom helloWordFast 250 (279817166, 3987420338, 1418082271, 1846750817) 15376 := by
          have e := md5BlocksFrom_add helloWordFast 0 md5Init 250 15376
          rw [helloChunk0] at e
          exact e
      _ = md5BlocksFrom helloWordFast 500 (2118697192, 1528047371, 1132127217, 4067375048) 15126 := by
          have e := md5BlocksFrom_add helloWordFast 250 (279817166, 3987420338, 1418082271, 1846750817) 250 15126
          rw [helloChunk1] at e
          exact e
      _ = md5BlocksFrom helloWordFast 750 (1469695954, 3672304470, 415794941, 524268982) 14876 := by
          have e := md5BlocksFrom_add helloWordFast 500 (2118697192, 1528047371, 1132127217, 4067375048) 250 14876
          rw [helloChunk2] at e
          exact e
      _ = md5BlocksFrom helloWordFast 1000 (2358050857, 272057744, 2599355425, 3719496069) 14626 := by
          have e := md5BlocksFrom_add helloWordFast 750 (1469695954, 3672304470, 415794941, 524268982) 250 14626
          rw [helloChunk3] at e
          exact e
      _ = md5BlocksFrom helloWordFast 1250 (977194880, 3215864386, 2243891343, 4174238533) 14376 := by
          have e := md5BlocksFrom_add helloWordFast 1000 (2358050857, 272057744, 2599355425, 3719496069) 250 14376
          rw [helloChunk4] at e
          exact e
      _ = md5BlocksFrom helloWordFast 1500 (924045534, 1537839465, 1423865311, 3311767357) 14126 := by
          have e := md5BlocksFrom_add helloWordFast 1250 (977194880, 3215864386, 2243891343, 4174238533) 250 14126
          rw [helloChunk5] at e
          exact e
      _ = md5BlocksFrom helloWordFast 1750 (1669472020, 23180540, 1826779267, 2694337039) 13876 := by
          have e := md5BlocksFrom_add helloWordFast 1500 (924045534, 1537839465, 1423865311, 3311767357) 250 13876
          rw [helloChunk6] at e
          exact e
      _ = md5BlocksFrom helloWordFast 2000 (2506288974, 3263713427, 4282540181, 3013073649) 13626 := by
          have e := md5BlocksFrom_add helloWordFast 1750 (1669472020, 23180540, 1826779267, 2694337039) 250 13626
          rw [helloChunk7] at e
          exact e
      _ = md5BlocksFrom helloWordFast 2250 (453306253, 363923787, 2402198098, 3810824751) 13376 := by
          have e := md5BlocksFrom_add helloWordFast 2000 (2506288974, 3263713427, 4282540181, 3013073649) 250 13376
          rw [helloChunk8] at e
          exact e
      _ = md5BlocksFrom helloWordFast 2500 (1651606902, 2976221364, 3413205264, 618254484) 13126 := by
          have e := md5BlocksFrom_add helloWordFast 2250 (453306253, 363923787, 2402198098, 3810824751) 250 13126
          rw [helloChunk9] at e
          exact e
      _ = md5BlocksFrom helloWordFast 2750 (3531729101, 1218245231, 2364621210, 3255329944) 12876 := by
          have e := md5BlocksFrom_add helloWordFast 2500 (1651606902, 2976221364, 3413205264, 618254484) 250 12876
          rw [helloChunk10] at e
          exact e
      _ = md5BlocksFrom helloWordFast 3000 (3238414553, 1113412322, 2235090968, 507004125) 12626 := by
          have e := md5BlocksFrom_add helloWordFast 2750 (3531729101, 1218245231, 2364621210, 3255329944) 250 12626
          rw [helloChunk11] at e
          exact e
      _ = md5BlocksFrom helloWordFast 3250 (2022164177, 719339565, 1806023190, 4105080835) 12376 := by
          have e := md5BlocksFrom_add helloWordFast 3000 (3238414553, 1113412322, 2235090968, 507004125) 250 12376
          rw [helloChunk12] at e
          exact e
      _ = md5BlocksFrom helloWordFast 3500 (2583190189, 2793802784, 285839012, 2291378072) 12126 := by
          have e := md5BlocksFrom_add helloWordFast 3250 (2022164177, 719339565, 1806023190, 4105080835) 250 12126
          rw [helloChunk13] at e
          exact e
      _ = md5BlocksFrom helloWordFast 3750 (3838313861, 978373153, 2120929392, 2500645483) 11876 := by
          have e := md5BlocksFrom_add helloWordFast 3500 (2583190189, 2793802784, 285839012, 2291378072) 250 11876
          rw [helloChunk14] at e
          exact e
      _ = md5BlocksFrom helloWordFast 4000 (3682971947, 1001681280, 3697313081, 3833346641) 11626 := by
          have e := md5BlocksFrom_add helloWordFast 3750 (3838313861, 978373153, 2120929392, 2500645483) 250 11626
          rw [helloChunk15] at e
          exact e
      _ = md5BlocksFrom helloWordFast 4250 (2586265141, 2464452573, 2488557549, 1336275740) 11376 := by
          have e := md5BlocksFrom_add helloWordFast 4000 (3682971947, 1001681280, 3697313081, 3833346641) 250 11376
          rw [helloChunk16] at e
          exact e
      _ = md5BlocksFrom helloWordFast 4500 (588823132, 666456420, 1327807729, 277925300) 11126 := by
          have e := md5BlocksFrom_add helloWordFast 4250 (2586265141, 2464452573, 2488557549, 1336275740) 250 11126
          rw [helloChunk17] at e
          exact e
      _ = md5BlocksFrom helloWordFast 4750 (608960079, 1788820787, 3875486991, 2252980983) 10876 := by
          have e := md5BlocksFrom_add helloWordFast 4500 (588823132, 666456420, 1327807729, 277925300) 250 10876
          rw [helloChunk18] at e
          exact e
      _ = md5BlocksFrom helloWordFast 5000 (793459018, 1957138016, 2883777014, 1506904881) 10626 := by
          have e := md5BlocksFrom_add helloWordFast 4750 (608960079, 1788820787, 3875486991, 2252980983) 250 10626
          rw [helloChunk19] at e
          exact e
      _ = md5BlocksFrom helloWordFast 5250 (1202918165, 2240243099, 2948130163, 2907674833) 10376 := by
          have e := md5BlocksFrom_add helloWordFast 5000 (793459018, 1957138016, 2883777014, 1506904881) 250 10376
          rw [helloChunk20] at e
          exact e
      _ = md5BlocksFrom helloWordFast 5500 (1944344704, 3120835297, 4091601199, 2863112132) 10126 := by
          have e := md5BlocksFrom_add helloWordFast 5250 (1202918165, 2240243099, 2948130163, 2907674833) 250 10126
          rw [helloChunk21] at e
          exact e
      _ = md5BlocksFrom helloWordFast 5750 (2031704708, 1942917886, 2262973988, 3589524585) 9876 := by
          have e := md5BlocksFrom_add helloWordFast 5500 (1944344704, 3120835297, 4091601199, 2863112132) 250 9876
          rw [helloChunk22] at e
          exact e
      _ = md5BlocksFrom helloWordFast 6000 (1828059008, 4224851268, 2901837598, 967860497) 9626 := by
          have e := md5BlocksFrom_add helloWordFast 5750 (2031704708, 1942917886, 2262973988, 3589524585) 250 9626
          rw [helloChunk23] at e
          exact e
      _ = md5BlocksFrom helloWordFast 6250 (996911204, 3111626882, 3006520364, 2627551367) 9376 := by
          have e := md5BlocksFrom_add helloWordFast 6000 (1828059008, 4224851268, 2901837598, 967860497) 250 9376
          rw [helloChunk24] at e
          exact e
      _ = md5BlocksFrom helloWordFast 6500 (1671036064, 2014221269, 3624999084, 203762518) 9126 := by
          have e := md5BlocksFrom_add helloWordFast 6250 (996911204, 3111626882, 3006520364, 2627551367) 250 9126
          rw [helloChunk25] at e
          exact e
      _ = md5BlocksFrom helloWordFast 6750 (2036394135, 129410767, 1093742154, 1493144027) 8876 := by
          have e := md5BlocksFrom_add helloWordFast 6500 (1671036064, 2014221269, 3624999084, 203762518) 250 8876
          rw [helloChunk26] at e
          exact e
      _ = md5BlocksFrom helloWordFast 7000 (3718709250, 1942781575, 617193022, 2813032396) 8626 := by
          have e := md5BlocksFrom_add helloWordFast 6750 (2036394135, 129410767, 1093742154, 1493144027) 250 8626
          rw [helloChunk27] at e
          exact e
      _ = md5BlocksFrom helloWordFast 7250 (2691401769, 2641852271, 3126282726, 3389396771) 8376 := by
          have e := md5BlocksFrom_add helloWordFast 7000 (3718709250, 1942781575, 617193022, 2813032396) 250 8376
          rw [helloChunk28] at e
          exact e
      _ = md5BlocksFrom helloWordFast 7500 (4000069475, 2323996637, 1190681098, 745004470) 8126 := by
          have e := md5BlocksFrom_add helloWordFast 7250 (2691401769, 2641852271, 3126282726, 3389396771) 250 8126
          rw [helloChunk29] at e
          exact e
      _ = md5BlocksFrom helloWordFast 7750 (3978125147, 1836660225, 3048665422, 3659624382) 7876 := by
          have e := md5BlocksFrom_add helloWordFast 7500 (4000069475, 2323996637, 1190681098, 745004470) 250 7876
          rw [helloChunk30] at e
          exact e
      _ = md5BlocksFrom helloWordFast 8000 (4283647200, 2638495032, 1975905345, 3513153642) 7626 := by
          have e := md5BlocksFrom_add helloWordFast 7750 (3978125147, 1836660225, 3048665422, 3659624382) 250 7626
          rw [helloChunk31] at e
          exact e
      _ = md5BlocksFrom helloWordFast 8250 (809313396, 1668499138, 731997505, 3696440382) 7376 := by
          have e := md5BlocksFrom_add helloWordFast 8000 (4283647200, 2638495032, 1975905345, 3513153642) 250 7376
          rw [helloChunk32] at e
          exact e
      _ = md5BlocksFrom helloWordFast 8500 (2813569412, 1993542220, 611388312, 3730704711) 7126 := by
          have e := md5BlocksFrom_add helloWordFast 8250 (809313396, 1668499138, 731997505, 3696440382) 250 7126
          rw [helloChunk33] at e
          exact e
      _ = md5BlocksFrom helloWordFast 8750 (1729878416, 2154959944, 1380842437, 1347860533) 6876 := by
          have e := md5BlocksFrom_add helloWordFast 8500 (2813569412, 1993542220, 611388312, 3730704711) 250 6876
          rw [helloChunk34] at e
          exact e
      _ = md5BlocksFrom helloWordFast 9000 (610827617, 1504535842, 2007879569, 489896259) 6626 := by
          have e := md5BlocksFrom_add helloWordFast 8750 (1729878416, 2154959944, 1380842437, 1347860533) 250 6626
          rw [helloChunk35] at e
          exact e
      _ = md5BlocksFrom helloWordFast 9250 (2757068915, 3988247544, 774948366, 3919867261) 6376 := by
          have e := md5BlocksFrom_add helloWordFast 9000 (610827617, 1504535842, 2007879569, 489896259) 250 6376
          rw [helloChunk36] at e
          exact e
      _ = md5BlocksFrom helloWordFast 9500 (1909075566, 1435507791, 3084194999, 2482524039) 6126 := by
          have e := md5BlocksFrom_add helloWordFast 9250 (2757068915, 3988247544, 774948366, 3919867261) 250 6126
          rw [helloChunk37] at e
          exact e
      _ = md5BlocksFrom helloWordFast 9750 (3564376634, 2736729184, 974714406, 3207485485) 5876 := by
          have e := md5BlocksFrom_add helloWordFast 9500 (1909075566, 1435507791, 3084194999, 2482524039) 250 5876
          rw [helloChunk38] at e
          exact e
      _ = md5BlocksFrom helloWordFast 10000 (295189923, 1671874241, 1486809314, 1646305476) 5626 := by
          have e := md5BlocksFrom_add helloWordFast 9750 (3564376634, 2736729184, 974714406, 3207485485) 250 5626
          rw [helloChunk39] at e
          exact e
      _ = md5BlocksFrom helloWordFast 10250 (2613190766, 878561821, 2295331946, 899462625) 5376 := by
          have e := md5BlocksFrom_add helloWordFast 10000 (295189923, 1671874241, 1486809314, 1646305476) 250 5376
          rw [helloChunk40] at e
          exact e
      _ = md5BlocksFrom helloWordFast 10500 (275269938, 1952210888, 1080078057, 171515975) 5126 := by
          have e := md5BlocksFrom_add helloWordFast 10250 (2613190766, 878561821, 2295331946, 899462625) 250 5126
          rw [helloChunk41] at e
          exact e
      _ = md5BlocksFrom helloWordFast 10750 (3968575081, 3049458250, 565561935, 4129701960) 4876 := by
          have e := md5BlocksFrom_add helloWordFast 10500 (275269938, 1952210888, 1080078057, 171515975) 250 4876
          rw [helloChunk42] at e
          exact e
      _ = md5BlocksFrom helloWordFast 11000 (2381914571, 3365840288, 3240678025, 2935463127) 4626 := by
          have e := md5BlocksFrom_add helloWordFast 10750 (3968575081, 3049458250, 565561935, 4129701960) 250 4626
          rw [helloChunk43] at e
          exact e
      _ = md5BlocksFrom helloWordFast 11250 (2618466828, 860838192, 2045014204, 1610186242) 4376 := by
          have e := md5BlocksFrom_add helloWordFast 11000 (2381914571, 3365840288, 3240678025, 2935463127) 250 4376
          rw [helloChunk44] at e
          exact e
      _ = md5BlocksFrom helloWordFast 11500 (1043771025, 4062682210, 1600232700, 4064097329) 4126 := by
          have e := md5BlocksFrom_add helloWordFast 11250 (2618466828, 860838192, 2045014204, 1610186242) 250 4126
          rw [helloChunk45] at e
          exact e
      _ = md5BlocksFrom helloWordFast 11750 (2721135718, 1222519401, 2875836359, 498592076) 3876 := by
          have e := md5BlocksFrom_add helloWordFast 11500 (1043771025, 4062682210, 1600232700, 4064097329) 250 3876
          rw [helloChunk46] at e
          exact e
      _ = md5BlocksFrom helloWordFast 12000 (1118541887, 2629240042, 1078761569, 1033557956) 3626 := by
          have e := md5BlocksFrom_add helloWordFast 11750 (2721135718, 1222519401, 2875836359, 498592076) 250 3626
          rw [helloChunk47] at e
          exact e
      _ = md5BlocksFrom helloWordFast 12250 (3739632317, 943260914, 1743446007, 1848227289) 3376 := by
          have e := md5BlocksFrom_add helloWordFast 12000 (1118541887, 2629240042, 1078761569, 1033557956) 250 3376
          rw [helloChunk48] at e
          exact e
      _ = md5BlocksFrom helloWordFast 12500 (2170169783, 1882826971, 1321461377, 3202494383) 3126 := by
          have e := md5BlocksFrom_add helloWordFast 12250 (3739632317, 943260914, 1743446007, 1848227289) 250 3126
          rw [helloChunk49] at e
          exact e
      _ = md5BlocksFrom helloWordFast 12750 (3112134304, 3064828056, 3056675218, 3744001918) 2876 := by
          have e := md5BlocksFrom_add helloWordFast 12500 (2170169783, 1882826971, 1321461377, 3202494383) 250 2876
          rw [helloChunk50] at e
          exact e
      _ = md5BlocksFrom helloWordFast 13000 (3806006726, 661235011, 2555262030, 1856379234) 2626 := by
          have e := md5BlocksFrom_add helloWordFast 12750 (3112134304, 3064828056, 3056675218, 3744001918) 250 2626
          rw [helloChunk51] at e
          exact e
      _ = md5BlocksFrom helloWordFast 13250 (4000380079, 3261004121, 2684227606, 1312817783) 2376 := by
          have e := md5BlocksFrom_add helloWordFast 13000 (3806006726, 661235011, 2555262030, 1856379234) 250 2376
          rw [helloChunk52] at e
          exact e
      _ = md5BlocksFrom helloWordFast 13500 (1130160762, 1716143996, 1447067397, 1156809654) 2126 := by
          have e := md5BlocksFrom_add helloWordFast 13250 (4000380079, 3261004121, 2684227606, 1312817783) 250 2126
          rw [helloChunk53] at e
          exact e
      _ = md5BlocksFrom helloWordFast 13750 (3927525998, 374161928, 2350003914, 2762389166) 1876 := by
          have e := md5BlocksFrom_add helloWordFast 13500 (1130160762, 1716143996, 1447067397, 1156809654) 250 1876
          rw [helloChunk54] at e
          exact e
      _ = md5BlocksFrom helloWordFast 14000 (2458350134, 1370972752, 3213149775, 446935418) 1626 := by
          have e := md5BlocksFrom_add helloWordFast 13750 (3927525998, 374161928, 2350003914, 2762389166) 250 1626
          rw [helloChunk55] at e
          exact e
      _ = md5BlocksFrom helloWordFast 14250 (1993371111, 2479606918, 574718907, 2369358623) 1376 := by
          have e := md5BlocksFrom_add helloWordFast 14000 (2458350134, 1370972752, 3213149775, 446935418) 250 1376
          rw [helloChunk56] at e
          exact e
      _ = md5BlocksFrom helloWordFast 14500 (3180323892, 1747654173, 3342464214, 3795992043) 1126 := by
          have e := md5BlocksFrom_add helloWordFast 14250 (1993371111, 2479606918, 574718907, 2369358623) 250 1126
          rw [helloChunk57] at e
          exact e
      _ = md5BlocksFrom helloWordFast 14750 (3859758446, 4239933306, 3014037496, 188655338) 876 := by
          have e := md5BlocksFrom_add helloWordFast 14500 (3180323892, 1747654173, 3342464214, 3795992043) 250 876
          rw [helloChunk58] at e
          exact e
      _ = md5BlocksFrom helloWordFast 15000 (2222332444, 3648434059, 3908136082, 1536046707) 626 := by
          have e := md5BlocksFrom_add helloWordFast 14750 (3859758446, 4239933306, 3014037496, 188655338) 250 626
          rw [helloChunk59] at e
          exact e
      _ = md5BlocksFrom helloWordFast 15250 (2232129622, 2976786862, 2923510281, 828166875) 376 := by
          have e := md5BlocksFrom_add helloWordFast 15000 (2222332444, 3648434059, 3908136082, 1536046707) 250 376
          rw [helloChunk60] at e
          exact e
      _ = md5BlocksFrom helloWordFast 15500 (4087556308, 1578666567, 926670449, 2020476222) 126 := by
          have e := md5BlocksFrom_add helloWordFast 15250 (2232129622, 2976786862, 2923510281, 828166875) 250 126
          rw [helloChunk61] at e
          exact e
      _ = (3177828284, 2546401649, 3049822386, 1603705650) := helloChunk62

/-- The checksum the deduplication code computes for `"Hello, world!"`:
the MD5 of the 13 bytes zero-padded to the full 1 MB read buffer. -/
theorem helloChecksum : dedupe_md5 13 helloByte = "bccf69bd7101c797b298c8b5329b965f" := by
  rw [dedupe_md5_small 13 helloByte (by norm_num) (by unfold MB; norm_num)]
  rw [show (fun j => if j < 13 then helloByte j else 0) = helloPadded from rfl]
  unfold md5Hex
  rw [helloState_eq, helloFastState]
  decide

/-! Dispatch-layer reductions of the checksum -/

theorem dedupe_checksum_other (parsedId : Option (List Nat)) (mimetype : String)
    (len : Nat) (byte : Nat → Nat) (hm : mimetype ≠ "message/rfc822") :
    dedupe_checksum parsedId mimetype len byte = dedupe_md5 len byte := by
  unfold dedupe_checksum
  rw [if_neg hm]

theorem dedupe_checksum_rfc (parsedId : Option (List Nat)) (len : Nat) (byte : Nat → Nat) :
    dedupe_checksum parsedId "message/rfc822" len byte = dedupe_message parsedId len byte := by
  simp [dedupe_checksum]

/-- Empty content makes zero reads, so the digest is the MD5 of the empty
byte string. -/
theorem dedupe_md5_zero (byte : Nat → Nat) :
    dedupe_md5 0 byte = "d41d8cd98f00b204e9800998ecf8427e" := by
  unfold dedupe_md5
  rw [show numReads 0 * MB = 0 from rfl]
  rw [@md5Hex_congr (fun j => bufferAfter 0 byte (j / MB) (j % MB)) (fun _ => 0) 0
    (fun j hj => absurd hj (Nat.not_lt_zero j))]
  decide

/-! Closed form of the timed `try_join_all` model -/

theorem maxFinish_mem {rs : List StratRun} {r : StratRun} (h : r ∈ rs) :
    r.finish ≤ maxFinish rs := by
  induction rs with
  | nil => cases h
  | cons x xs ih =>
      rcases List.mem_cons.mp h with h | h
      · subst h; exact le_max_left _ _
      · exact le_trans (ih h) (le_max_right _ _)

theorem allDoneBy_le {rs : List StratRun} {t : Nat} (h : allDoneBy t rs = true) :
    maxFinish rs ≤ t := by
  induction rs with
  | nil => exact Nat.zero_le t
  | cons x xs ih =>
      unfold allDoneBy at h
      simp only [List.all_cons, Bool.and_eq_true, decide_eq_true_eq] at h
      unfold maxFinish
      simp only [List.foldr_cons]
      exact max_le h.1 (ih (by unfold allDoneBy; simpa using h.2))

theorem firstErrAmong_none {rs : List StratRun} {t : Nat}
    (h : ∀ r ∈ rs, (∃ e, r.result = Except.error e) → t < r.finish) :
    firstErrAmong t rs = none := by
  induction rs with
  | nil => rfl
  | cons x xs ih =>
      unfold firstErrAmong
      have hxs : firstErrAmong t xs = none :=
        ih fun r hr => h r (List.mem_cons_of_mem x hr)
      by_cases hf : x.finish ≤ t
      · rw [if_pos hf]
        cases hx : x.result with
        | error e =>
            exfalso
            have := h x (List.mem_cons_self x xs) ⟨e, hx⟩
            omega
        | ok u => exact hxs
      · rw [if_neg hf]; exact hxs

theorem minErrTime_none_ok {rs : List StratRun} (h : minErrTime rs = none) :
    ∀ r ∈ rs, ∀ e, r.result ≠ Except.error e := by
  induction rs with
  | nil => intro r hr; cases hr
  | cons x xs ih =>
      intro r hr e
      unfold minErrTime at h
      rcases List.mem_cons.mp hr with hm | hm
      · subst hm
        intro hx
        rw [hx] at h
        cases hmx : minErrTime xs <;> rw [hmx] at h <;> simp at h
      · cases hx : x.result with
        | error e' =>
            rw [hx] at h
            cases hmx : minErrTime xs <;> rw [hmx] at h <;> simp at h
        | ok u =>
            rw [hx] at h
            exact ih h r hm e

theorem minErrTime_le {rs : List StratRun} :
    ∀ {T : Nat}, minErrTime rs = some T →
      ∀ r ∈ rs, (∃ e, r.result = Except.error e) → T ≤ r.finish := by
  induction rs with
  | nil => intro T hT r hr; cases hr
  | cons x xs ih =>
      intro T hT r hr he
      unfold minErrTime at hT
      rcases List.mem_cons.mp hr with hm | hm
      · subst hm
        obtain ⟨e, hx⟩ := he
        rw [hx] at hT
        cases hmx : minErrTime xs <;> rw [hmx] at hT <;> simp at hT <;> omega
      · cases hx : x.result with
        | error e' =>
            rw [hx] at hT
            cases hmx : minErrTime xs with
            | some m =>
                rw [hmx] at hT
                simp at hT
                have := ih hmx r hm he
                omega
            | none =>
                rw [hmx] at hT
                exfalso
                obtain ⟨e, hre⟩ := he
                exact minErrTime_none_ok hmx r hm e hre
        | ok u =>
            rw [hx] at hT
            exact ih hT r hm he

theorem minErrTime_attained {rs : List StratRun} :
    ∀ {T : Nat}, minErrTime rs = some T →
      ∃ r ∈ rs, (∃ e, r.result = Except.error e) ∧ r.finish = T := by
  induction rs with
  | nil => intro T hT; simp [minErrTime] at hT
  | cons x xs ih =>
      intro T hT
      unfold minErrTime at hT
      cases hx : x.result with
      | error e =>
          rw [hx] at hT
          cases hmx : minErrTime xs with
          | some m =>
              rw [hmx] at hT
              simp at hT
              by_cases hcmp : x.finish ≤ m
              · refine ⟨x, List.mem_cons_self x xs, ⟨e, hx⟩, ?_⟩
                omega
              · obtain ⟨r, hr, hre, hrT⟩ := ih hmx
                refine ⟨r, List.mem_cons_of_mem x hr, hre, ?_⟩
                omega
          | none =>
              rw [hmx] at hT
              simp at hT
              exact ⟨x, List.mem_cons_self x xs, ⟨e, hx⟩, hT⟩
      | ok u =>
          rw [hx] at hT
          obtain ⟨r, hr, hre, hrT⟩ := ih hT
          exact ⟨r, List.mem_cons_of_mem x hr, hre, hrT⟩

theorem firstErrAmong_some {rs : List StratRun} :
    ∀ {T : Nat}, minErrTime rs = some T → ∃ e, firstErrAmong T rs = some e := by
  induction rs with
  | nil => intro T hT; simp [minErrTime] at hT
  | cons x xs ih =>
      intro T hT
      unfold minErrTime at hT
      unfold firstErrAmong
      cases hx : x.result with
      | error e =>
          rw [hx] at hT
          cases hmx : minErrTime xs with
          | some m =>
              rw [hmx] at hT
              simp at hT
              by_cases hf : x.finish ≤ T
              · rw [if_pos hf]; exact ⟨e, rfl⟩
              · rw [if_neg hf]
                have hm : m = T := by omega
                subst hm
                exact ih hmx
          | none =>
              rw [hmx] at hT
              simp at hT
              rw [if_pos (by omega)]
              exact ⟨e, rfl⟩
      | ok u =>
          rw [hx] at hT
          have := ih hT
          by_cases hf : x.finish ≤ T
          · rw [if_pos hf]
            exact this
          · rw [if_neg hf]
            exact this

theorem allDoneBy_false {rs : List StratRun} {T t : Nat} (hT : minErrTime rs = some T)
    (hlt : t < T) : allDoneBy t rs = false := by
  obtain ⟨r, hr, hre, hrT⟩ := minErrTime_attained hT
  cases hall : allDoneBy t rs with
  | false => rfl
  | true =>
      exfalso
      unfold allDoneBy at hall
      rw [List.all_eq_true] at hall
      have := hall r hr
      simp at this
      omega

theorem joinLoop_eq_err {rs : List StratRun} {t fuel : Nat} {e : String}
    (he : firstErrAmong t rs = some e) : joinLoop rs t fuel = (t, Except.error e) := by
  cases fuel <;> simp [joinLoop, he]

theorem joinLoop_zero_ok {rs : List StratRun} {t : Nat}
    (he : firstErrAmong t rs = none) : joinLoop rs t 0 = (t, Except.ok ()) := by
  simp [joinLoop, he]

theorem joinLoop_succ_step {rs : List StratRun} {t fuel : Nat}
    (he : firstErrAmong t rs = none) (hd : allDoneBy t rs = false) :
    joinLoop rs t (fuel + 1) = joinLoop rs (t + 1) fuel := by
  simp [joinLoop, he, hd]

theorem joinLoop_noerr {rs : List StratRun} (hne : minErrTime rs = none) :
    ∀ fuel t, maxFinish rs = t + fuel → joinLoop rs t fuel = (maxFinish rs, Except.ok ()) := by
  have herr : ∀ t, firstErrAmong t rs = none := fun t =>
    firstErrAmong_none fun r hr he => by
      obtain ⟨e, hre⟩ := he
      exact absurd hre (minErrTime_none_ok hne r hr e)
  intro fuel
  induction fuel with
  | zero =>
      intro t ht
      rw [joinLoop_zero_ok (herr t), show maxFinish rs = t by omega]
  | succ fuel ih =>
      intro t ht
      cases hall : allDoneBy t rs with
      | true =>
          have := allDoneBy_le hall
          exfalso
          omega
      | false =>
          rw [joinLoop_succ_step (herr t) hall]
          exact ih (t + 1) (by omega)

theorem joinLoop_err {rs : List StratRun} {T : Nat} (hT : minErrTime rs = some T) :
    ∀ fuel t, t ≤ T → maxFinish rs = t + fuel →
      joinLoop rs t fuel = (T, Except.error ((firstErrAmong T rs).getD "")) := by
  intro fuel
  induction fuel with
  | zero =>
      intro t hle ht
      obtain ⟨r, hr, hre, hrT⟩ := minErrTime_attained hT
      have hrmax := maxFinish_mem hr
      have hteq : t = T := by omega
      subst hteq
      obtain ⟨e, he⟩ := firstErrAmong_some hT
      rw [joinLoop_eq_err he, he]
      rfl
  | succ fuel ih =>
      intro t hle ht
      by_cases heq : t = T
      · subst heq
        obtain ⟨e, he⟩ := firstErrAmong_some hT
        rw [joinLoop_eq_err he, he]
        rfl
      · have hlt : t < T := by omega
        rw [joinLoop_succ_step
          (firstErrAmong_none fun r hr he => lt_of_lt_of_le hlt (minErrTime_le hT r hr he))
          (allDoneBy_false hT hlt)]
        exact ih (t + 1) (by omega) (by omega)

theorem try_join_all_noerr {rs : List StratRun} (hne : minErrTime rs = none) :
    try_join_all rs = (maxFinish rs, Except.ok ()) :=
  joinLoop_noerr hne (maxFinish rs) 0 (by omega)

theorem try_join_all_err {rs : List StratRun} {T : Nat} (hT : minErrTime rs = some T) :
    try_join_all rs = (T, Except.error ((firstErrAmong T rs).getD "")) :=
  joinLoop_err hT (maxFinish rs) 0 (Nat.zero_le T) (by omega)


/-! Archive paths versus the specification's join -/

theorem string_append_ne_empty (p c : String) : p ++ "/" ++ c ≠ "" := by
  intro h
  have hlen := congrArg String.length h
  rw [String.length_append, String.length_append] at hlen
  have hone : ("/" : String).length = 1 := rfl
  have hz : ("" : String).length = 0 := rfl
  omega

theorem specJoin_cons_ne (c : String) (cs : List String) (hc : c ≠ "") :
    specJoin (c :: cs) ≠ "" := by
  cases cs with
  | nil => exact hc
  | cons c2 cs2 => exact string_append_ne_empty c (specJoin (c2 :: cs2))

theorem specJoin_append_last (l : List String) (x : String) (hl : l ≠ []) :
    specJoin (l ++ [x]) = specJoin l ++ "/" ++ x := by
  induction l with
  | nil => cases hl rfl
  | cons c cs ih =>
      cases cs with
      | nil => rfl
      | cons c2 cs2 =>
          show c ++ "/" ++ specJoin ((c2 :: cs2) ++ [x]) =
            (c ++ "/" ++ specJoin (c2 :: cs2)) ++ "/" ++ x
          rw [ih (by simp)]
          simp [String.append_assoc]

theorem foldl_pathPush (chain : List String) :
    ∀ p, p ≠ "" → List.foldl pathPush p chain = specJoin (p :: chain) := by
  induction chain with
  | nil => intro p _; rfl
  | cons c cs ih =>
      intro p hp
      show List.foldl pathPush (pathPush p c) cs = specJoin (p :: c :: cs)
      have hpc : pathPush p c = p ++ "/" ++ c := if_neg hp
      rw [ih (pathPush p c) (by rw [hpc]; exact string_append_ne_empty p c), hpc]
      cases cs with
      | nil => rfl
      | cons c2 cs2 =>
          show p ++ "/" ++ c ++ "/" ++ specJoin (c2 :: cs2) =
            p ++ "/" ++ (c ++ "/" ++ specJoin (c2 :: cs2))
          simp [String.append_assoc]

theorem build_archive_path_spec (chain : List String) (name : String)
    (hc : ∀ c ∈ chain, c ≠ "") :
    build_archive_path chain name = specArchivePath chain name := by
  cases chain with
  | nil => rfl
  | cons c cs =>
      unfold build_archive_path specArchivePath
      have h1 : List.foldl pathPush "" (c :: cs) = List.foldl pathPush c cs := rfl
      rw [h1, foldl_pathPush cs c (hc c (List.mem_cons_self c cs))]
      rw [specJoin_append_last (c :: cs) name (by simp)]
      unfold pathPush
      rw [if_neg (specJoin_cons_ne c cs (hc c (List.mem_cons_self c cs)))]

/-! The claims -/

/-- C1, counterexample: for the 13-byte input `"Hello, world!"` under media
type `application/octet-stream`, the checksum is NOT the MD5 of exactly the
file's byte contents — the read loop feeds the whole 1 MB buffer to the
digest, so the checksum is the MD5 of the zero-padded buffer instead. -/
theorem C1_counterexample :
    dedupe_checksum none "application/octet-stream" 13 helloByte ≠ md5Hex 13 helloByte := by
  have h1 : dedupe_checksum none "application/octet-stream" 13 helloByte =
      "bccf69bd7101c797b298c8b5329b965f" := by
    rw [dedupe_checksum_other none "application/octet-stream" 13 helloByte (by decide)]
    exact helloChecksum
  have h2 : md5Hex 13 helloByte = "6cd3556deb0da54bca060b4c39479839" := by decide
  rw [h1, h2]
  decide

/-- C1, amended: for every media type other than `message/rfc822` and every
non-empty content of at most 1 MB, the checksum equals the lowercase-hex MD5
digest of the content zero-padded to the full 1 MB read buffer (each read
loop iteration digests the entire buffer, not just the bytes read). -/
theorem C1_amended (parsedId : Option (List Nat)) (mimetype : String) (len : Nat)
    (byte : Nat → Nat) (hm : mimetype ≠ "message/rfc822") (h0 : 0 < len) (h1 : len ≤ MB) :
    dedupe_checksum parsedId mimetype len byte =
      md5Hex MB (fun j => if j < len then byte j else 0) := by
  unfold dedupe_checksum
  rw [if_neg hm]
  exact dedupe_md5_small len byte h0 h1

/-- C1, witness: the amended statement instantiated on `"Hello, world!"`
under `application/octet-stream`. -/
theorem C1_witness :
    "application/octet-stream" ≠ "message/rfc822" ∧ 0 < 13 ∧ 13 ≤ MB ∧
    dedupe_checksum none "application/octet-stream" 13 helloByte =
      md5Hex MB (fun j => if j < 13 then helloByte j else 0) :=
  ⟨by decide, by decide, by decide,
    C1_amended none "application/octet-stream" 13 helloByte (by decide) (by decide) (by decide)⟩

/-- C2, counterexample: for a `message/rfc822` input with all four kinds
requested and the text strategy failing at time 2 while the other three run
until time 5, `Processor::process` resolves with the error at time 2 —
strictly before the latest strategy finish — so it neither awaits every
launched strategy to completion nor returns the first error only after all
strategies have completed. -/
theorem C2_counterexample :
    (Processor.process "message/rfc822"
        [ProcessType.text, ProcessType.metadata, ProcessType.pdf, ProcessType.embedded]
        cexRun).1 <
      maxFinish (launchedRuns "message/rfc822"
        [ProcessType.text, ProcessType.metadata, ProcessType.pdf, ProcessType.embedded]
        cexRun) ∧
    (Processor.process "message/rfc822"
        [ProcessType.text, ProcessType.metadata, ProcessType.pdf, ProcessType.embedded]
        cexRun).2 = Except.error "text strategy failed" := by
  decide

/-- C2, amended: `Processor::process` joins its launched strategies with
`futures::future::try_join_all`, which is fail-fast: when every strategy
succeeds the join resolves `Ok` exactly when the last strategy finishes;
when one or more fail, it resolves at the earliest failure time with the
error of the first failed strategy found then, cancelling — not awaiting —
the strategies still running (artifacts already pushed stay in the output
channel; the model does not roll anything back). -/
theorem C2_amended (mimetype : String) (types : List ProcessType)
    (runOf : ProcName → StratRun) :
    (minErrTime (launchedRuns mimetype types runOf) = none →
      Processor.process mimetype types runOf =
        (maxFinish (launchedRuns mimetype types runOf), Except.ok ())) ∧
    (∀ T, minErrTime (launchedRuns mimetype types runOf) = some T →
      Processor.process mimetype types runOf =
        (T, Except.error
          ((firstErrAmong T (launchedRuns mimetype types runOf)).getD ""))) :=
  ⟨fun h => try_join_all_noerr h, fun _ h => try_join_all_err h⟩

/-- C2, witness: the amended statement instantiated on a context resolving
two strategies, the text one failing at time 2. -/
theorem C2_witness :
    Processor.process "message/rfc822" [ProcessType.text, ProcessType.metadata] cexRun =
      (2, Except.error ((firstErrAmong 2 (launchedRuns "message/rfc822"
        [ProcessType.text, ProcessType.metadata] cexRun)).getD "")) :=
  (C2_amended "message/rfc822" [ProcessType.text, ProcessType.metadata] cexRun).2 2 (by decide)

/-- C3: the source's text-strategy exclusion arm for plain text reads
`"text/plain "` — with a trailing space — so the exact media type
`text/plain` resolves the default text strategy when `Text` is requested
(an `extracted.txt` is produced), while only the malformed string
`"text/plain "` resolves none. -/
theorem C3_dispatch_bug :
    determine_processors "text/plain" [ProcessType.text] = [ProcName.defaultText] ∧
    text_processor "text/plain" = some ProcName.defaultText ∧
    text_processor "text/plain " = none := by
  decide

/-- C4: the checksum of the bytes `"Hello, world!"` under declared media
type `application/octet-stream` is `bccf69bd7101c797b298c8b5329b965f`
(the MD5 of the contents zero-padded to the 1 MB read buffer, matching the
source's own unit test). -/
theorem C4_hello_checksum :
    dedupe_checksum none "application/octet-stream" 13 helloByte =
      "bccf69bd7101c797b298c8b5329b965f" := by
  rw [dedupe_checksum_other none "application/octet-stream" 13 helloByte (by decide)]
  exact helloChecksum

/-- C5, counterexample: two successfully parsed Message-ID values that
differ — `"abc"` and `"abc"` followed by a NUL byte — yield EQUAL
checksums, whatever the message bodies are: the checksum digests the id
zero-padded to the 1 MB read buffer, so the trailing NUL disappears. -/
theorem C5_counterexample :
    ([97, 98, 99] : List Nat) ≠ [97, 98, 99, 0] ∧
    dedupe_checksum (some [97, 98, 99]) "message/rfc822" 50 (fun _ => 65) =
      dedupe_checksum (some [97, 98, 99, 0]) "message/rfc822" 60 (fun _ => 66) := by
  constructor
  · decide
  · have a1 : dedupe_checksum (some [97, 98, 99]) "message/rfc822" 50 (fun _ => 65) =
        dedupe_message (some [97, 98, 99]) 50 (fun _ => 65) :=
      dedupe_checksum_rfc (some [97, 98, 99]) 50 (fun _ => 65)
    have a2 : dedupe_message (some [97, 98, 99]) 50 (fun _ => 65) =
        dedupe_md5 3 (fun i => ([97, 98, 99] : List Nat).getD i 0) := rfl
    have b1 : dedupe_checksum (some [97, 98, 99, 0]) "message/rfc822" 60 (fun _ => 66) =
        dedupe_message (some [97, 98, 99, 0]) 60 (fun _ => 66) :=
      dedupe_checksum_rfc (some [97, 98, 99, 0]) 60 (fun _ => 66)
    have b2 : dedupe_message (some [97, 98, 99, 0]) 60 (fun _ => 66) =
        dedupe_md5 4 (fun i => ([97, 98, 99, 0] : List Nat).getD i 0) := rfl
    rw [a1, a2, b1, b2]
    rw [dedupe_md5_small 3 _ (by decide) (by decide),
      dedupe_md5_small 4 _ (by decide) (by decide)]
    apply md5Hex_congr
    intro j _
    by_cases h3 : j < 3
    · rw [if_pos h3, if_pos (by omega)]
      interval_cases j <;> rfl
    · rw [if_neg h3]
      by_cases h4 : j < 4
      · have hj : j = 3 := by omega
        subst hj
        rw [if_pos h4]
        rfl
      · rw [if_neg h4]

/-- C5, amended: two `message/rfc822` inputs that parse with byte-identical
Message-ID values have equal checksums even when their bodies differ;
differing Message-ID values, however, need not produce different checksums
(the checksum is the MD5 of the id bytes zero-padded to the 1 MB read
buffer, so e.g. ids agreeing up to trailing NUL bytes collide). -/
theorem C5_amended (id : List Nat) (len1 len2 : Nat) (b1 b2 : Nat → Nat) :
    dedupe_checksum (some id) "message/rfc822" len1 b1 =
      dedupe_checksum (some id) "message/rfc822" len2 b2 := by
  rw [dedupe_checksum_rfc (some id) len1 b1, dedupe_checksum_rfc (some id) len2 b2]
  show dedupe_message (some id) len1 b1 = dedupe_message (some id) len2 b2
  rfl

/-- C6: the checksum of empty content is the MD5 of the empty byte string,
`d41d8cd98f00b204e9800998ecf8427e`, for every declared media type —
including `message/rfc822`, where nothing parses (no Message-ID) and the
whole-payload fallback applies. -/
theorem C6_empty_checksum (mimetype : String) (byte : Nat → Nat) :
    dedupe_checksum none mimetype 0 byte = "d41d8cd98f00b204e9800998ecf8427e" := by
  unfold dedupe_checksum
  split
  · show dedupe_md5 0 byte = _
    exact dedupe_md5_zero byte
  · exact dedupe_md5_zero byte

/-- C7: `identify_mimetype` follows the strict precedence chain: it returns
the OS identifier's answer iff that answer is neither
`application/octet-stream` nor `text/plain`; otherwise the text-extraction
service's answer iff it is not `application/octet-stream`; otherwise the
embedded magic-number table's answer iff it is not
`application/octet-stream`; otherwise none. -/
theorem C7_identify_chain (x t f : String) :
    identify_mimetype (Except.ok x) (Except.ok t) (Except.ok f) =
      Except.ok (
        if x ≠ "application/octet-stream" ∧ x ≠ "text/plain" then some x
        else if t ≠ "application/octet-stream" then some t
        else if f ≠ "application/octet-stream" then some f
        else none) := by
  unfold identify_mimetype identify_using_xdg_mime identify_using_tika
    identify_using_file_format
  by_cases hx : x ≠ "application/octet-stream" ∧ x ≠ "text/plain" <;>
    by_cases ht : t ≠ "application/octet-stream" <;>
      by_cases hf : f ≠ "application/octet-stream" <;>
        simp [hx, ht, hf, Except.map]

/-- C8: the archive path of an artifact is its provenance chain joined as
directory components, in order, followed by the leaf name (an empty chain
puts the leaf at the archive root); a `Processed` artifact is archived
under its producing state's chain, and an `Embedded` artifact under that
chain extended with the embedded file's own checksum. -/
theorem C8_archive_paths (chain : List String) (d : ProcessOutputData)
    (hc : ∀ c ∈ chain, c ≠ "") (hck : d.checksum ≠ "") :
    build_archive_path [] d.name = d.name ∧
    build_archive_path chain d.name = specArchivePath chain d.name ∧
    archive_path_of (ProcessOutput.processed ⟨chain⟩ d) = specArchivePath chain d.name ∧
    archive_path_of (ProcessOutput.embedded ⟨chain⟩ d) =
      specArchivePath (chain ++ [d.checksum]) d.name := by
  refine ⟨rfl, build_archive_path_spec chain d.name hc,
    build_archive_path_spec chain d.name hc, ?_⟩
  show build_archive_path (chain ++ [d.checksum]) d.name = _
  refine build_archive_path_spec _ _ ?_
  intro c hcm
  rcases List.mem_append.mp hcm with h | h
  · exact hc c h
  · rw [List.mem_singleton.mp h]
    exact hck

/-- C8, witness: a two-level chain with an embedded jpeg. -/
theorem C8_witness :
    archive_path_of (ProcessOutput.embedded ⟨["c1", "c2"]⟩
        ⟨"image.jpg", "image/jpeg", "c3"⟩) =
      specArchivePath ["c1", "c2", "c3"] "image.jpg" :=
  (C8_archive_paths ["c1", "c2"] ⟨"image.jpg", "image/jpeg", "c3"⟩
    (by decide) (by decide)).2.2.2

/-- C9: a renderer failure with exit code exactly 1 is coerced to success
and the (possibly empty) PDF buffer is emitted; renderer failures with any
other exit code are returned as errors. -/
theorem C9_renderer_exit_codes (c : Int) (bytes : List Nat) (hc : c ≠ 1) :
    render_pdf (Except.error (RenderError.command (some 1))) bytes = Except.ok bytes ∧
    render_pdf (Except.error (RenderError.command (some c))) bytes =
      Except.error (RenderError.command (some c)) := by
  constructor
  · rfl
  · simp [render_pdf, render_html_to_pdf, exitCodeIsOne, exit_code, hc]

/-- C9, witness: exit code 1 versus exit code 2 on a one-byte buffer. -/
theorem C9_witness :
    render_pdf (Except.error (RenderError.command (some 1))) [42] = Except.ok [42] ∧
    render_pdf (Except.error (RenderError.command (some 2))) [42] =
      Except.error (RenderError.command (some 2)) :=
  C9_renderer_exit_codes 2 [42] (by decide)

/-- C10: `ProcessContext::new_clone` yields a context whose mimetype is the
argument while the requested types, the provenance state (its `id_chain`)
and the output-channel sender are exactly those of the original context —
strategy-side context cloning never changes the provenance chain. -/
theorem C10_new_clone (c : ProcessContext) (m : String) :
    (c.new_clone m).mimetype = m ∧
    (c.new_clone m).types = c.types ∧
    (c.new_clone m).state = c.state ∧
    (c.new_clone m).output_sink = c.output_sink ∧
    (c.new_clone m).state.id_chain = c.state.id_chain :=
  ⟨rfl, rfl, rfl, rfl, rfl⟩
